import Mathlib

/-!
Verification of the universal-mcp YouTube application (src/src/universal_mcp_youtube/app.py)
against its design specification.

The application class YoutubeApp is a thin client over the YouTube REST API: every endpoint
method checks its required path parameters against None, builds a URL from the fixed base
URL, filters unset (None) optional parameters out of a query dictionary, dispatches exactly
one GET, POST or DELETE call through the inherited HTTP client, raises on a non-success
status and returns the decoded JSON body. One extra method, get_captions, delegates to a
third-party transcript fetcher and joins the snippet texts with single spaces.

The embedding below is shallow and executable. Dynamic Python values that can populate a
query parameter are modelled by Val; JSON bodies by Json. The external HTTP client of the
base class (spec section 6: it supplies get, post and delete, each returning a response
object exposing a status and a JSON decode) is modelled as a function from requests to
responses; each endpoint method additionally returns the list of requests it issued and the
final application state, so that call-count and frame properties are expressible. The
response helpers raise_for_status and _handle_response live in the external base library,
not in this repository; they are modelled from the spec (sections 4.1 and 7): success range
is 2xx, any other status fails carrying status code and raw body.
-/

/-- A JSON value, the shape of request and response bodies. -/
inductive Json where
  | null
  | bool (b : Bool)
  | num (n : Int)
  | str (s : String)
  | arr (elems : List Json)
  | obj (fields : List (String × Json))

/-- A non-None Python value that can be passed for a parameter: the argument values the
generated client forwards verbatim (booleans, integers, strings). An absent parameter is
Option.none, mirroring the None default of every optional parameter. -/
inductive Val where
  | bool (b : Bool)
  | int (n : Int)
  | str (s : String)
deriving DecidableEq

/-- Python str() on a Val, as used by f-string interpolation into the URL. -/
def pstr : Val → String
  | Val.bool true => "True"
  | Val.bool false => "False"
  | Val.int n => toString n
  | Val.str s => s

/-- The HTTP verb an endpoint method dispatches with. -/
inductive Verb where
  | get
  | post
  | delete
deriving DecidableEq

/-- A response object of the external HTTP client collaborator (spec section 6): it exposes
a status and a JSON-decoded body. -/
structure HTTPResponse where
  status : Nat
  body : Json

/-- One invocation of the external HTTP client: verb, resolved URL, assembled
query-parameter mapping, and request body (the empty JSON object for POST, nothing for GET
and DELETE). -/
structure Request where
  verb : Verb
  url : String
  params : List (String × Val)
  body : Option Json

/-- The external HTTP client collaborator, modelled as a function from the issued request
to the response it produces. -/
def Transport := Request → HTTPResponse

/-- The application object: its only own state is the base URL set by the constructor. -/
structure YoutubeApp where
  base_url : String

/-- Embeds the YoutubeApp constructor: base_url is set to the fixed YouTube v3 base. -/
def YoutubeApp.init : YoutubeApp :=
  ⟨"https://www.googleapis.com/youtube/v3"⟩

/-- The error taxonomy of the spec (section 7). missingParameter embeds the
ValueError raised as Missing required parameter, carrying the parameter name;
upstreamError embeds the HTTP status error raised on a non-success response, carrying
status and raw body; transcriptUnavailable embeds the exception raised by get_captions,
carrying the requested video identifier and the stringified original cause. -/
inductive AppError where
  | missingParameter (name : String)
  | upstreamError (status : Nat) (body : Json)
  | transcriptUnavailable (videoId : String) (cause : String)

/-- The observable outcome of one endpoint-method invocation: the returned value or raised
error, the list of requests issued through the HTTP client, and the application state after
the call. -/
structure Outcome where
  result : Except AppError Json
  calls : List Request
  final : YoutubeApp

/-- Transcribes the dict comprehension every endpoint method builds its query parameters
with: keep exactly the pairs whose value is not None, in order. -/
def pyDictComp : List (String × Option Val) → List (String × Val)
  | [] => []
  | (k, some v) :: rest => (k, v) :: pyDictComp rest
  | (_, none) :: rest => pyDictComp rest

/-- Modelled from the spec: response.raise_for_status() followed by response.json(), the
postcondition of section 4.1. The method bodies call these on the response object of the
external HTTP client; a status in the success range yields the decoded JSON body, any other
status fails with an UpstreamError carrying that status and the raw body. -/
def raise_for_status_json (r : HTTPResponse) : Except AppError Json :=
  if 200 ≤ r.status ∧ r.status < 300 then Except.ok r.body
  else Except.error (AppError.upstreamError r.status r.body)

/-- Modelled from the spec: the base-class helper self._handle_response(response) used by
delete_comments lives in the external base library, absent from this repository; per the
spec (sections 4.1 and 7) it behaves as raise_for_status followed by json. -/
def handle_response (r : HTTPResponse) : Except AppError Json :=
  raise_for_status_json r

/-- The shared tail of every endpoint method that checks the status itself:
response = self._verb(url, params=query_params); response.raise_for_status();
return response.json(). Exactly one request goes through the transport and the
application state is returned untouched (no method body assigns to self). -/
def httpCall (t : Transport) (app : YoutubeApp) (verb : Verb) (url : String)
    (query_params : List (String × Val)) (body : Option Json) : Outcome :=
  let req : Request := ⟨verb, url, query_params, body⟩
  let response := t req
  ⟨raise_for_status_json response, [req], app⟩

/-- The shared tail of delete_comments: response = self._delete(url, params=query_params);
return self._handle_response(response). -/
def httpCallHandle (t : Transport) (app : YoutubeApp) (verb : Verb) (url : String)
    (query_params : List (String × Val)) (body : Option Json) : Outcome :=
  let req : Request := ⟨verb, url, query_params, body⟩
  let response := t req
  ⟨handle_response response, [req], app⟩

/-- The query parameters an invocation actually sent: the parameter mappings of all issued
requests, concatenated (every method issues at most one request). -/
def sentParams (o : Outcome) : List (String × Val) :=
  (o.calls.map Request.params).flatten

/-- A caption snippet returned by the transcript-fetch collaborator. Its timing fields
(start, duration) are never read by the code under verification and are omitted. -/
structure TranscriptSnippet where
  text : String

/-- The wording of spec section 4.1 for the transcript operation, transcribed on the list
of snippet texts: concatenate them in sequence order, joined by a single space; the empty
sequence yields the empty string. -/
def specSpaceJoin : List String → String
  | [] => ""
  | [x] => x
  | x :: y :: rest => x ++ " " ++ specSpaceJoin (y :: rest)

/-- Embeds YoutubeApp.get_captions (src/src/universal_mcp_youtube/app.py, lines 278-306):
check video_id against None, fetch the transcript through the third-party collaborator
(modelled as a function returning either the snippet list or the raised exception message),
join the snippet texts with single spaces; any collaborator failure is re-raised as an
exception carrying the video identifier and the stringified cause. -/
def get_captions (fetch : String → Except String (List TranscriptSnippet))
    (video_id : Option String) : Except AppError String :=
  match video_id with
  | none => Except.error (AppError.missingParameter "video_id")
  | some vid =>
    match fetch vid with
    | Except.ok snippets =>
        Except.ok (String.intercalate " " (snippets.map TranscriptSnippet.text))
    | Except.error e => Except.error (AppError.transcriptUnavailable vid e)


/-! The forty-five HTTP endpoint methods of YoutubeApp, one definition each. -/


/-- Embeds YoutubeApp.get_jobs_job_reports (src/src/universal_mcp_youtube/app.py, lines 23-71): required-parameter checks against None, f-string URL, None-filtering dict comprehension for the query parameters, one GET dispatch, then response.raise_for_status() and response.json(). -/
def get_jobs_job_reports (t : Transport) (app : YoutubeApp)
    (jobId createdAfter onBehalfOfContentOwner pageSize pageToken startTimeAtOrAfter startTimeBefore : Option Val) : Outcome :=
  match jobId with
  | none => ⟨Except.error (AppError.missingParameter "jobId"), [], app⟩
  | some jobId =>
  let url := app.base_url ++ "/v1/jobs/" ++ pstr jobId ++ "/reports"
  let query_params := pyDictComp [("createdAfter", createdAfter), ("onBehalfOfContentOwner", onBehalfOfContentOwner), ("pageSize", pageSize), ("pageToken", pageToken), ("startTimeAtOrAfter", startTimeAtOrAfter), ("startTimeBefore", startTimeBefore)]
  httpCall t app Verb.get url query_params none

/-- Embeds YoutubeApp.get_jobs_job_reports_report (src/src/universal_mcp_youtube/app.py, lines 73-106): required-parameter checks against None, f-string URL, None-filtering dict comprehension for the query parameters, one GET dispatch, then response.raise_for_status() and response.json(). -/
def get_jobs_job_reports_report (t : Transport) (app : YoutubeApp)
    (jobId reportId onBehalfOfContentOwner : Option Val) : Outcome :=
  match jobId with
  | none => ⟨Except.error (AppError.missingParameter "jobId"), [], app⟩
  | some jobId =>
  match reportId with
  | none => ⟨Except.error (AppError.missingParameter "reportId"), [], app⟩
  | some reportId =>
  let url := app.base_url ++ "/v1/jobs/" ++ pstr jobId ++ "/reports/" ++ pstr reportId
  let query_params := pyDictComp [("onBehalfOfContentOwner", onBehalfOfContentOwner)]
  httpCall t app Verb.get url query_params none

/-- Embeds YoutubeApp.delete_jobs_job (src/src/universal_mcp_youtube/app.py, lines 108-136): required-parameter checks against None, f-string URL, None-filtering dict comprehension for the query parameters, one DELETE dispatch, then response.raise_for_status() and response.json(). -/
def delete_jobs_job (t : Transport) (app : YoutubeApp)
    (jobId onBehalfOfContentOwner : Option Val) : Outcome :=
  match jobId with
  | none => ⟨Except.error (AppError.missingParameter "jobId"), [], app⟩
  | some jobId =>
  let url := app.base_url ++ "/v1/jobs/" ++ pstr jobId
  let query_params := pyDictComp [("onBehalfOfContentOwner", onBehalfOfContentOwner)]
  httpCall t app Verb.delete url query_params none

/-- Embeds YoutubeApp.get_jobs (src/src/universal_mcp_youtube/app.py, lines 138-176): required-parameter checks against None, f-string URL, None-filtering dict comprehension for the query parameters, one GET dispatch, then response.raise_for_status() and response.json(). -/
def get_jobs (t : Transport) (app : YoutubeApp)
    (includeSystemManaged onBehalfOfContentOwner pageSize pageToken : Option Val) : Outcome :=
  let url := app.base_url ++ "/v1/jobs"
  let query_params := pyDictComp [("includeSystemManaged", includeSystemManaged), ("onBehalfOfContentOwner", onBehalfOfContentOwner), ("pageSize", pageSize), ("pageToken", pageToken)]
  httpCall t app Verb.get url query_params none

/-- Embeds YoutubeApp.get_media_resource_name (src/src/universal_mcp_youtube/app.py, lines 178-201): required-parameter checks against None, f-string URL, None-filtering dict comprehension for the query parameters, one GET dispatch, then response.raise_for_status() and response.json(). -/
def get_media_resource_name (t : Transport) (app : YoutubeApp)
    (resourceName : Option Val) : Outcome :=
  match resourceName with
  | none => ⟨Except.error (AppError.missingParameter "resourceName"), [], app⟩
  | some resourceName =>
  let url := app.base_url ++ "/v1/media/" ++ pstr resourceName
  let query_params : List (String × Val) := []
  httpCall t app Verb.get url query_params none

/-- Embeds YoutubeApp.get_reporttypes (src/src/universal_mcp_youtube/app.py, lines 203-241): required-parameter checks against None, f-string URL, None-filtering dict comprehension for the query parameters, one GET dispatch, then response.raise_for_status() and response.json(). -/
def get_reporttypes (t : Transport) (app : YoutubeApp)
    (includeSystemManaged onBehalfOfContentOwner pageSize pageToken : Option Val) : Outcome :=
  let url := app.base_url ++ "/v1/reportTypes"
  let query_params := pyDictComp [("includeSystemManaged", includeSystemManaged), ("onBehalfOfContentOwner", onBehalfOfContentOwner), ("pageSize", pageSize), ("pageToken", pageToken)]
  httpCall t app Verb.get url query_params none

/-- Embeds YoutubeApp.delete_captions (src/src/universal_mcp_youtube/app.py, lines 243-275): required-parameter checks against None, f-string URL, None-filtering dict comprehension for the query parameters, one DELETE dispatch, then response.raise_for_status() and response.json(). -/
def delete_captions (t : Transport) (app : YoutubeApp)
    (id onBehalfOf onBehalfOfContentOwner : Option Val) : Outcome :=
  let url := app.base_url ++ "/captions"
  let query_params := pyDictComp [("id", id), ("onBehalfOf", onBehalfOf), ("onBehalfOfContentOwner", onBehalfOfContentOwner)]
  httpCall t app Verb.delete url query_params none

/-- Embeds YoutubeApp.delete_comments (src/src/universal_mcp_youtube/app.py, lines 308-327): required-parameter checks against None, f-string URL, None-filtering dict comprehension for the query parameters, one DELETE dispatch, then self._handle_response(response). -/
def delete_comments (t : Transport) (app : YoutubeApp)
    (id : Option Val) : Outcome :=
  let url := app.base_url ++ "/comments"
  let query_params := pyDictComp [("id", id)]
  httpCallHandle t app Verb.delete url query_params none

/-- Embeds YoutubeApp.add_comments_mark_as_spam (src/src/universal_mcp_youtube/app.py, lines 329-349): required-parameter checks against None, f-string URL, None-filtering dict comprehension for the query parameters, one POST dispatch, then response.raise_for_status() and response.json(). -/
def add_comments_mark_as_spam (t : Transport) (app : YoutubeApp)
    (id : Option Val) : Outcome :=
  let url := app.base_url ++ "/comments/markAsSpam"
  let query_params := pyDictComp [("id", id)]
  httpCall t app Verb.post url query_params (some (Json.obj []))

/-- Embeds YoutubeApp.add_comments_set_moderation_status (src/src/universal_mcp_youtube/app.py, lines 351-383): required-parameter checks against None, f-string URL, None-filtering dict comprehension for the query parameters, one POST dispatch, then response.raise_for_status() and response.json(). -/
def add_comments_set_moderation_status (t : Transport) (app : YoutubeApp)
    (banAuthor id moderationStatus : Option Val) : Outcome :=
  let url := app.base_url ++ "/comments/setModerationStatus"
  let query_params := pyDictComp [("banAuthor", banAuthor), ("id", id), ("moderationStatus", moderationStatus)]
  httpCall t app Verb.post url query_params (some (Json.obj []))

/-- Embeds YoutubeApp.delete_live_broadcasts (src/src/universal_mcp_youtube/app.py, lines 385-417): required-parameter checks against None, f-string URL, None-filtering dict comprehension for the query parameters, one DELETE dispatch, then response.raise_for_status() and response.json(). -/
def delete_live_broadcasts (t : Transport) (app : YoutubeApp)
    (id onBehalfOfContentOwner onBehalfOfContentOwnerChannel : Option Val) : Outcome :=
  let url := app.base_url ++ "/liveBroadcasts"
  let query_params := pyDictComp [("id", id), ("onBehalfOfContentOwner", onBehalfOfContentOwner), ("onBehalfOfContentOwnerChannel", onBehalfOfContentOwnerChannel)]
  httpCall t app Verb.delete url query_params none

/-- Embeds YoutubeApp.add_live_broadcasts_bind (src/src/universal_mcp_youtube/app.py, lines 419-460): required-parameter checks against None, f-string URL, None-filtering dict comprehension for the query parameters, one POST dispatch, then response.raise_for_status() and response.json(). -/
def add_live_broadcasts_bind (t : Transport) (app : YoutubeApp)
    (id onBehalfOfContentOwner onBehalfOfContentOwnerChannel part streamId : Option Val) : Outcome :=
  let url := app.base_url ++ "/liveBroadcasts/bind"
  let query_params := pyDictComp [("id", id), ("onBehalfOfContentOwner", onBehalfOfContentOwner), ("onBehalfOfContentOwnerChannel", onBehalfOfContentOwnerChannel), ("part", part), ("streamId", streamId)]
  httpCall t app Verb.post url query_params (some (Json.obj []))

/-- Embeds YoutubeApp.add_live_broadcasts_control (src/src/universal_mcp_youtube/app.py, lines 462-509): required-parameter checks against None, f-string URL, None-filtering dict comprehension for the query parameters, one POST dispatch, then response.raise_for_status() and response.json(). -/
def add_live_broadcasts_control (t : Transport) (app : YoutubeApp)
    (displaySlate id offsetTimeMs onBehalfOfContentOwner onBehalfOfContentOwnerChannel part walltime : Option Val) : Outcome :=
  let url := app.base_url ++ "/liveBroadcasts/control"
  let query_params := pyDictComp [("displaySlate", displaySlate), ("id", id), ("offsetTimeMs", offsetTimeMs), ("onBehalfOfContentOwner", onBehalfOfContentOwner), ("onBehalfOfContentOwnerChannel", onBehalfOfContentOwnerChannel), ("part", part), ("walltime", walltime)]
  httpCall t app Verb.post url query_params (some (Json.obj []))

/-- Embeds YoutubeApp.add_live_broadcasts_transition (src/src/universal_mcp_youtube/app.py, lines 511-552): required-parameter checks against None, f-string URL, None-filtering dict comprehension for the query parameters, one POST dispatch, then response.raise_for_status() and response.json(). -/
def add_live_broadcasts_transition (t : Transport) (app : YoutubeApp)
    (broadcastStatus id onBehalfOfContentOwner onBehalfOfContentOwnerChannel part : Option Val) : Outcome :=
  let url := app.base_url ++ "/liveBroadcasts/transition"
  let query_params := pyDictComp [("broadcastStatus", broadcastStatus), ("id", id), ("onBehalfOfContentOwner", onBehalfOfContentOwner), ("onBehalfOfContentOwnerChannel", onBehalfOfContentOwnerChannel), ("part", part)]
  httpCall t app Verb.post url query_params (some (Json.obj []))

/-- Embeds YoutubeApp.delete_live_chat_bans (src/src/universal_mcp_youtube/app.py, lines 554-574): required-parameter checks against None, f-string URL, None-filtering dict comprehension for the query parameters, one DELETE dispatch, then response.raise_for_status() and response.json(). -/
def delete_live_chat_bans (t : Transport) (app : YoutubeApp)
    (id : Option Val) : Outcome :=
  let url := app.base_url ++ "/liveChat/bans"
  let query_params := pyDictComp [("id", id)]
  httpCall t app Verb.delete url query_params none

/-- Embeds YoutubeApp.delete_live_chat_messages (src/src/universal_mcp_youtube/app.py, lines 576-596): required-parameter checks against None, f-string URL, None-filtering dict comprehension for the query parameters, one DELETE dispatch, then response.raise_for_status() and response.json(). -/
def delete_live_chat_messages (t : Transport) (app : YoutubeApp)
    (id : Option Val) : Outcome :=
  let url := app.base_url ++ "/liveChat/messages"
  let query_params := pyDictComp [("id", id)]
  httpCall t app Verb.delete url query_params none

/-- Embeds YoutubeApp.delete_live_chat_moderators (src/src/universal_mcp_youtube/app.py, lines 598-618): required-parameter checks against None, f-string URL, None-filtering dict comprehension for the query parameters, one DELETE dispatch, then response.raise_for_status() and response.json(). -/
def delete_live_chat_moderators (t : Transport) (app : YoutubeApp)
    (id : Option Val) : Outcome :=
  let url := app.base_url ++ "/liveChat/moderators"
  let query_params := pyDictComp [("id", id)]
  httpCall t app Verb.delete url query_params none

/-- Embeds YoutubeApp.delete_videos (src/src/universal_mcp_youtube/app.py, lines 620-645): required-parameter checks against None, f-string URL, None-filtering dict comprehension for the query parameters, one DELETE dispatch, then response.raise_for_status() and response.json(). -/
def delete_videos (t : Transport) (app : YoutubeApp)
    (id onBehalfOfContentOwner : Option Val) : Outcome :=
  let url := app.base_url ++ "/videos"
  let query_params := pyDictComp [("id", id), ("onBehalfOfContentOwner", onBehalfOfContentOwner)]
  httpCall t app Verb.delete url query_params none

/-- Embeds YoutubeApp.get_videos_get_rating (src/src/universal_mcp_youtube/app.py, lines 647-672): required-parameter checks against None, f-string URL, None-filtering dict comprehension for the query parameters, one GET dispatch, then response.raise_for_status() and response.json(). -/
def get_videos_get_rating (t : Transport) (app : YoutubeApp)
    (id onBehalfOfContentOwner : Option Val) : Outcome :=
  let url := app.base_url ++ "/videos/getRating"
  let query_params := pyDictComp [("id", id), ("onBehalfOfContentOwner", onBehalfOfContentOwner)]
  httpCall t app Verb.get url query_params none

/-- Embeds YoutubeApp.add_videos_rate (src/src/universal_mcp_youtube/app.py, lines 674-697): required-parameter checks against None, f-string URL, None-filtering dict comprehension for the query parameters, one POST dispatch, then response.raise_for_status() and response.json(). -/
def add_videos_rate (t : Transport) (app : YoutubeApp)
    (id rating : Option Val) : Outcome :=
  let url := app.base_url ++ "/videos/rate"
  let query_params := pyDictComp [("id", id), ("rating", rating)]
  httpCall t app Verb.post url query_params (some (Json.obj []))

/-- Embeds YoutubeApp.add_videos_report_abuse (src/src/universal_mcp_youtube/app.py, lines 699-723): required-parameter checks against None, f-string URL, None-filtering dict comprehension for the query parameters, one POST dispatch, then response.raise_for_status() and response.json(). -/
def add_videos_report_abuse (t : Transport) (app : YoutubeApp)
    (onBehalfOfContentOwner : Option Val) : Outcome :=
  let url := app.base_url ++ "/videos/reportAbuse"
  let query_params := pyDictComp [("onBehalfOfContentOwner", onBehalfOfContentOwner)]
  httpCall t app Verb.post url query_params (some (Json.obj []))

/-- Embeds YoutubeApp.add_watermarks_set (src/src/universal_mcp_youtube/app.py, lines 725-753): required-parameter checks against None, f-string URL, None-filtering dict comprehension for the query parameters, one POST dispatch, then response.raise_for_status() and response.json(). -/
def add_watermarks_set (t : Transport) (app : YoutubeApp)
    (channelId onBehalfOfContentOwner : Option Val) : Outcome :=
  let url := app.base_url ++ "/watermarks/set"
  let query_params := pyDictComp [("channelId", channelId), ("onBehalfOfContentOwner", onBehalfOfContentOwner)]
  httpCall t app Verb.post url query_params (some (Json.obj []))

/-- Embeds YoutubeApp.add_watermarks_unset (src/src/universal_mcp_youtube/app.py, lines 755-783): required-parameter checks against None, f-string URL, None-filtering dict comprehension for the query parameters, one POST dispatch, then response.raise_for_status() and response.json(). -/
def add_watermarks_unset (t : Transport) (app : YoutubeApp)
    (channelId onBehalfOfContentOwner : Option Val) : Outcome :=
  let url := app.base_url ++ "/watermarks/unset"
  let query_params := pyDictComp [("channelId", channelId), ("onBehalfOfContentOwner", onBehalfOfContentOwner)]
  httpCall t app Verb.post url query_params (some (Json.obj []))

/-- Embeds YoutubeApp.get_activities (src/src/universal_mcp_youtube/app.py, lines 785-838): required-parameter checks against None, f-string URL, None-filtering dict comprehension for the query parameters, one GET dispatch, then response.raise_for_status() and response.json(). -/
def get_activities (t : Transport) (app : YoutubeApp)
    (channelId home maxResults mine pageToken part publishedAfter publishedBefore regionCode : Option Val) : Outcome :=
  let url := app.base_url ++ "/activities"
  let query_params := pyDictComp [("channelId", channelId), ("home", home), ("maxResults", maxResults), ("mine", mine), ("pageToken", pageToken), ("part", part), ("publishedAfter", publishedAfter), ("publishedBefore", publishedBefore), ("regionCode", regionCode)]
  httpCall t app Verb.get url query_params none

/-- Embeds YoutubeApp.add_channel_banners_insert (src/src/universal_mcp_youtube/app.py, lines 840-870): required-parameter checks against None, f-string URL, None-filtering dict comprehension for the query parameters, one POST dispatch, then response.raise_for_status() and response.json(). -/
def add_channel_banners_insert (t : Transport) (app : YoutubeApp)
    (channelId onBehalfOfContentOwner : Option Val) : Outcome :=
  let url := app.base_url ++ "/channelBanners/insert"
  let query_params := pyDictComp [("channelId", channelId), ("onBehalfOfContentOwner", onBehalfOfContentOwner)]
  httpCall t app Verb.post url query_params (some (Json.obj []))

/-- Embeds YoutubeApp.delete_channel_sections (src/src/universal_mcp_youtube/app.py, lines 872-897): required-parameter checks against None, f-string URL, None-filtering dict comprehension for the query parameters, one DELETE dispatch, then response.raise_for_status() and response.json(). -/
def delete_channel_sections (t : Transport) (app : YoutubeApp)
    (id onBehalfOfContentOwner : Option Val) : Outcome :=
  let url := app.base_url ++ "/channelSections"
  let query_params := pyDictComp [("id", id), ("onBehalfOfContentOwner", onBehalfOfContentOwner)]
  httpCall t app Verb.delete url query_params none

/-- Embeds YoutubeApp.get_channels (src/src/universal_mcp_youtube/app.py, lines 899-958): required-parameter checks against None, f-string URL, None-filtering dict comprehension for the query parameters, one GET dispatch, then response.raise_for_status() and response.json(). -/
def get_channels (t : Transport) (app : YoutubeApp)
    (categoryId forUsername hl id managedByMe maxResults mine mySubscribers onBehalfOfContentOwner pageToken part : Option Val) : Outcome :=
  let url := app.base_url ++ "/channels"
  let query_params := pyDictComp [("categoryId", categoryId), ("forUsername", forUsername), ("hl", hl), ("id", id), ("managedByMe", managedByMe), ("maxResults", maxResults), ("mine", mine), ("mySubscribers", mySubscribers), ("onBehalfOfContentOwner", onBehalfOfContentOwner), ("pageToken", pageToken), ("part", part)]
  httpCall t app Verb.get url query_params none

/-- Embeds YoutubeApp.get_comment_threads (src/src/universal_mcp_youtube/app.py, lines 960-1019): required-parameter checks against None, f-string URL, None-filtering dict comprehension for the query parameters, one GET dispatch, then response.raise_for_status() and response.json(). -/
def get_comment_threads (t : Transport) (app : YoutubeApp)
    (allThreadsRelatedToChannelId channelId id maxResults moderationStatus order pageToken part searchTerms textFormat videoId : Option Val) : Outcome :=
  let url := app.base_url ++ "/commentThreads"
  let query_params := pyDictComp [("allThreadsRelatedToChannelId", allThreadsRelatedToChannelId), ("channelId", channelId), ("id", id), ("maxResults", maxResults), ("moderationStatus", moderationStatus), ("order", order), ("pageToken", pageToken), ("part", part), ("searchTerms", searchTerms), ("textFormat", textFormat), ("videoId", videoId)]
  httpCall t app Verb.get url query_params none

/-- Embeds YoutubeApp.get_fanfundingevents (src/src/universal_mcp_youtube/app.py, lines 1021-1055): required-parameter checks against None, f-string URL, None-filtering dict comprehension for the query parameters, one GET dispatch, then response.raise_for_status() and response.json(). -/
def get_fanfundingevents (t : Transport) (app : YoutubeApp)
    (hl maxResults pageToken part : Option Val) : Outcome :=
  let url := app.base_url ++ "/fanFundingEvents"
  let query_params := pyDictComp [("hl", hl), ("maxResults", maxResults), ("pageToken", pageToken), ("part", part)]
  httpCall t app Verb.get url query_params none

/-- Embeds YoutubeApp.get_guecategories (src/src/universal_mcp_youtube/app.py, lines 1057-1089): required-parameter checks against None, f-string URL, None-filtering dict comprehension for the query parameters, one GET dispatch, then response.raise_for_status() and response.json(). -/
def get_guecategories (t : Transport) (app : YoutubeApp)
    (hl id part regionCode : Option Val) : Outcome :=
  let url := app.base_url ++ "/guideCategories"
  let query_params := pyDictComp [("hl", hl), ("id", id), ("part", part), ("regionCode", regionCode)]
  httpCall t app Verb.get url query_params none

/-- Embeds YoutubeApp.get_languages (src/src/universal_mcp_youtube/app.py, lines 1091-1112): required-parameter checks against None, f-string URL, None-filtering dict comprehension for the query parameters, one GET dispatch, then response.raise_for_status() and response.json(). -/
def get_languages (t : Transport) (app : YoutubeApp)
    (hl part : Option Val) : Outcome :=
  let url := app.base_url ++ "/i18nLanguages"
  let query_params := pyDictComp [("hl", hl), ("part", part)]
  httpCall t app Verb.get url query_params none

/-- Embeds YoutubeApp.get_regions (src/src/universal_mcp_youtube/app.py, lines 1114-1135): required-parameter checks against None, f-string URL, None-filtering dict comprehension for the query parameters, one GET dispatch, then response.raise_for_status() and response.json(). -/
def get_regions (t : Transport) (app : YoutubeApp)
    (hl part : Option Val) : Outcome :=
  let url := app.base_url ++ "/i18nRegions"
  let query_params := pyDictComp [("hl", hl), ("part", part)]
  httpCall t app Verb.get url query_params none

/-- Embeds YoutubeApp.delete_livestreams (src/src/universal_mcp_youtube/app.py, lines 1137-1169): required-parameter checks against None, f-string URL, None-filtering dict comprehension for the query parameters, one DELETE dispatch, then response.raise_for_status() and response.json(). -/
def delete_livestreams (t : Transport) (app : YoutubeApp)
    (id onBehalfOfContentOwner onBehalfOfContentOwnerChannel : Option Val) : Outcome :=
  let url := app.base_url ++ "/liveStreams"
  let query_params := pyDictComp [("id", id), ("onBehalfOfContentOwner", onBehalfOfContentOwner), ("onBehalfOfContentOwnerChannel", onBehalfOfContentOwnerChannel)]
  httpCall t app Verb.delete url query_params none

/-- Embeds YoutubeApp.delete_play_list_items (src/src/universal_mcp_youtube/app.py, lines 1171-1196): required-parameter checks against None, f-string URL, None-filtering dict comprehension for the query parameters, one DELETE dispatch, then response.raise_for_status() and response.json(). -/
def delete_play_list_items (t : Transport) (app : YoutubeApp)
    (id onBehalfOfContentOwner : Option Val) : Outcome :=
  let url := app.base_url ++ "/playlistItems"
  let query_params := pyDictComp [("id", id), ("onBehalfOfContentOwner", onBehalfOfContentOwner)]
  httpCall t app Verb.delete url query_params none

/-- Embeds YoutubeApp.delete_playlists (src/src/universal_mcp_youtube/app.py, lines 1198-1223): required-parameter checks against None, f-string URL, None-filtering dict comprehension for the query parameters, one DELETE dispatch, then response.raise_for_status() and response.json(). -/
def delete_playlists (t : Transport) (app : YoutubeApp)
    (id onBehalfOfContentOwner : Option Val) : Outcome :=
  let url := app.base_url ++ "/playlists"
  let query_params := pyDictComp [("id", id), ("onBehalfOfContentOwner", onBehalfOfContentOwner)]
  httpCall t app Verb.delete url query_params none

/-- Embeds YoutubeApp.get_search (src/src/universal_mcp_youtube/app.py, lines 1225-1344): required-parameter checks against None, f-string URL, None-filtering dict comprehension for the query parameters, one GET dispatch, then response.raise_for_status() and response.json(). -/
def get_search (t : Transport) (app : YoutubeApp)
    (channelId channelType eventType forContentOwner forDeveloper forMine location locationRadius maxResults onBehalfOfContentOwner order pageToken part publishedAfter publishedBefore q regionCode relatedToVideoId relevanceLanguage safeSearch topicId type videoCaption videoCategoryId videoDefinition videoDimension videoDuration videoEmbeddable videoLicense videoSyndicated videoType : Option Val) : Outcome :=
  let url := app.base_url ++ "/search"
  let query_params := pyDictComp [("channelId", channelId), ("channelType", channelType), ("eventType", eventType), ("forContentOwner", forContentOwner), ("forDeveloper", forDeveloper), ("forMine", forMine), ("location", location), ("locationRadius", locationRadius), ("maxResults", maxResults), ("onBehalfOfContentOwner", onBehalfOfContentOwner), ("order", order), ("pageToken", pageToken), ("part", part), ("publishedAfter", publishedAfter), ("publishedBefore", publishedBefore), ("q", q), ("regionCode", regionCode), ("relatedToVideoId", relatedToVideoId), ("relevanceLanguage", relevanceLanguage), ("safeSearch", safeSearch), ("topicId", topicId), ("type", type), ("videoCaption", videoCaption), ("videoCategoryId", videoCategoryId), ("videoDefinition", videoDefinition), ("videoDimension", videoDimension), ("videoDuration", videoDuration), ("videoEmbeddable", videoEmbeddable), ("videoLicense", videoLicense), ("videoSyndicated", videoSyndicated), ("videoType", videoType)]
  httpCall t app Verb.get url query_params none

/-- Embeds YoutubeApp.get_sponsors (src/src/universal_mcp_youtube/app.py, lines 1346-1380): required-parameter checks against None, f-string URL, None-filtering dict comprehension for the query parameters, one GET dispatch, then response.raise_for_status() and response.json(). -/
def get_sponsors (t : Transport) (app : YoutubeApp)
    (filter maxResults pageToken part : Option Val) : Outcome :=
  let url := app.base_url ++ "/sponsors"
  let query_params := pyDictComp [("filter", filter), ("maxResults", maxResults), ("pageToken", pageToken), ("part", part)]
  httpCall t app Verb.get url query_params none

/-- Embeds YoutubeApp.delete_subscriptions (src/src/universal_mcp_youtube/app.py, lines 1382-1402): required-parameter checks against None, f-string URL, None-filtering dict comprehension for the query parameters, one DELETE dispatch, then response.raise_for_status() and response.json(). -/
def delete_subscriptions (t : Transport) (app : YoutubeApp)
    (id : Option Val) : Outcome :=
  let url := app.base_url ++ "/subscriptions"
  let query_params := pyDictComp [("id", id)]
  httpCall t app Verb.delete url query_params none

/-- Embeds YoutubeApp.get_superchatevents (src/src/universal_mcp_youtube/app.py, lines 1404-1438): required-parameter checks against None, f-string URL, None-filtering dict comprehension for the query parameters, one GET dispatch, then response.raise_for_status() and response.json(). -/
def get_superchatevents (t : Transport) (app : YoutubeApp)
    (hl maxResults pageToken part : Option Val) : Outcome :=
  let url := app.base_url ++ "/superChatEvents"
  let query_params := pyDictComp [("hl", hl), ("maxResults", maxResults), ("pageToken", pageToken), ("part", part)]
  httpCall t app Verb.get url query_params none

/-- Embeds YoutubeApp.add_thumbnails_set (src/src/universal_mcp_youtube/app.py, lines 1440-1468): required-parameter checks against None, f-string URL, None-filtering dict comprehension for the query parameters, one POST dispatch, then response.raise_for_status() and response.json(). -/
def add_thumbnails_set (t : Transport) (app : YoutubeApp)
    (onBehalfOfContentOwner videoId : Option Val) : Outcome :=
  let url := app.base_url ++ "/thumbnails/set"
  let query_params := pyDictComp [("onBehalfOfContentOwner", onBehalfOfContentOwner), ("videoId", videoId)]
  httpCall t app Verb.post url query_params (some (Json.obj []))

/-- Embeds YoutubeApp.get_video_abuse_report_reasons (src/src/universal_mcp_youtube/app.py, lines 1470-1491): required-parameter checks against None, f-string URL, None-filtering dict comprehension for the query parameters, one GET dispatch, then response.raise_for_status() and response.json(). -/
def get_video_abuse_report_reasons (t : Transport) (app : YoutubeApp)
    (hl part : Option Val) : Outcome :=
  let url := app.base_url ++ "/videoAbuseReportReasons"
  let query_params := pyDictComp [("hl", hl), ("part", part)]
  httpCall t app Verb.get url query_params none

/-- Embeds YoutubeApp.get_veocategories (src/src/universal_mcp_youtube/app.py, lines 1493-1525): required-parameter checks against None, f-string URL, None-filtering dict comprehension for the query parameters, one GET dispatch, then response.raise_for_status() and response.json(). -/
def get_veocategories (t : Transport) (app : YoutubeApp)
    (hl id part regionCode : Option Val) : Outcome :=
  let url := app.base_url ++ "/videoCategories"
  let query_params := pyDictComp [("hl", hl), ("id", id), ("part", part), ("regionCode", regionCode)]
  httpCall t app Verb.get url query_params none

/-- Embeds YoutubeApp.delete_groupitems (src/src/universal_mcp_youtube/app.py, lines 1527-1552): required-parameter checks against None, f-string URL, None-filtering dict comprehension for the query parameters, one DELETE dispatch, then response.raise_for_status() and response.json(). -/
def delete_groupitems (t : Transport) (app : YoutubeApp)
    (id onBehalfOfContentOwner : Option Val) : Outcome :=
  let url := app.base_url ++ "/groupItems"
  let query_params := pyDictComp [("id", id), ("onBehalfOfContentOwner", onBehalfOfContentOwner)]
  httpCall t app Verb.delete url query_params none

/-- Embeds YoutubeApp.delete_groups (src/src/universal_mcp_youtube/app.py, lines 1554-1579): required-parameter checks against None, f-string URL, None-filtering dict comprehension for the query parameters, one DELETE dispatch, then response.raise_for_status() and response.json(). -/
def delete_groups (t : Transport) (app : YoutubeApp)
    (id onBehalfOfContentOwner : Option Val) : Outcome :=
  let url := app.base_url ++ "/groups"
  let query_params := pyDictComp [("id", id), ("onBehalfOfContentOwner", onBehalfOfContentOwner)]
  httpCall t app Verb.delete url query_params none

/-- Embeds YoutubeApp.get_reports (src/src/universal_mcp_youtube/app.py, lines 1581-1637): required-parameter checks against None, f-string URL, None-filtering dict comprehension for the query parameters, one GET dispatch, then response.raise_for_status() and response.json(). -/
def get_reports (t : Transport) (app : YoutubeApp)
    (currency dimensions «end» filters ids «include» max metrics sort start : Option Val) : Outcome :=
  let url := app.base_url ++ "/reports"
  let query_params := pyDictComp [("currency", currency), ("dimensions", dimensions), ("end", «end»), ("filters", filters), ("ids", ids), ("include", «include»), ("max", max), ("metrics", metrics), ("sort", sort), ("start", start)]
  httpCall t app Verb.get url query_params none


/-- The names of the tool methods defined on the YoutubeApp class, in class-body definition
order (src/src/universal_mcp_youtube/app.py), excluding the constructor and list_tools
itself. -/
def definedToolMethods : List String := [
    "get_jobs_job_reports",
    "get_jobs_job_reports_report",
    "delete_jobs_job",
    "get_jobs",
    "get_media_resource_name",
    "get_reporttypes",
    "delete_captions",
    "get_captions",
    "delete_comments",
    "add_comments_mark_as_spam",
    "add_comments_set_moderation_status",
    "delete_live_broadcasts",
    "add_live_broadcasts_bind",
    "add_live_broadcasts_control",
    "add_live_broadcasts_transition",
    "delete_live_chat_bans",
    "delete_live_chat_messages",
    "delete_live_chat_moderators",
    "delete_videos",
    "get_videos_get_rating",
    "add_videos_rate",
    "add_videos_report_abuse",
    "add_watermarks_set",
    "add_watermarks_unset",
    "get_activities",
    "add_channel_banners_insert",
    "delete_channel_sections",
    "get_channels",
    "get_comment_threads",
    "get_fanfundingevents",
    "get_guecategories",
    "get_languages",
    "get_regions",
    "delete_livestreams",
    "delete_play_list_items",
    "delete_playlists",
    "get_search",
    "get_sponsors",
    "delete_subscriptions",
    "get_superchatevents",
    "add_thumbnails_set",
    "get_video_abuse_report_reasons",
    "get_veocategories",
    "delete_groupitems",
    "delete_groups",
    "get_reports"]

/-- Embeds YoutubeApp.list_tools (src/src/universal_mcp_youtube/app.py, lines 1639-1696):
the returned list of bound method references, represented by the referenced method names in
list order. -/
def list_tools : List String := [
    "get_jobs_job_reports",
    "get_jobs_job_reports_report",
    "delete_jobs_job",
    "get_jobs",
    "get_media_resource_name",
    "get_reporttypes",
    "delete_captions",
    "get_captions",
    "delete_comments",
    "add_comments_mark_as_spam",
    "add_comments_set_moderation_status",
    "delete_live_broadcasts",
    "add_live_broadcasts_bind",
    "add_live_broadcasts_control",
    "add_live_broadcasts_transition",
    "delete_live_chat_bans",
    "delete_live_chat_messages",
    "delete_live_chat_moderators",
    "delete_videos",
    "get_videos_get_rating",
    "add_videos_rate",
    "add_videos_report_abuse",
    "add_watermarks_set",
    "add_watermarks_unset",
    "get_activities",
    "add_channel_banners_insert",
    "delete_channel_sections",
    "get_channels",
    "get_comment_threads",
    "get_fanfundingevents",
    "get_guecategories",
    "get_languages",
    "get_regions",
    "delete_livestreams",
    "delete_play_list_items",
    "delete_playlists",
    "get_search",
    "get_sponsors",
    "delete_subscriptions",
    "get_superchatevents",
    "add_thumbnails_set",
    "get_video_abuse_report_reasons",
    "get_veocategories",
    "delete_groupitems",
    "delete_groups",
    "get_reports"]


/-! Helper lemmas shared by the claim theorems. -/

theorem str_append_assoc : ∀ (a b c : String), a ++ b ++ c = a ++ (b ++ c)
  | String.mk x, String.mk y, String.mk z => congrArg String.mk (List.append_assoc x y z)

theorem specSpaceJoin_append_head (x y : String) (rest : List String) :
    specSpaceJoin ((x ++ y) :: rest) = x ++ specSpaceJoin (y :: rest) := by
  cases rest with
  | nil => simp [specSpaceJoin]
  | cons b bs => simp [specSpaceJoin, str_append_assoc]

theorem intercalate_go_eq (l : List String) (acc : String) :
    String.intercalate.go acc " " l = specSpaceJoin (acc :: l) := by
  induction l generalizing acc with
  | nil => simp [String.intercalate.go, specSpaceJoin]
  | cons a as ih =>
    rw [String.intercalate.go, ih (acc ++ " " ++ a), specSpaceJoin_append_head]
    rfl

/-- The library join used by the embedding of get_captions agrees with the recursive
wording of the spec. -/
theorem intercalate_space_eq_specSpaceJoin (l : List String) :
    String.intercalate " " l = specSpaceJoin l := by
  cases l with
  | nil => rfl
  | cons a as => rw [String.intercalate, intercalate_go_eq]

theorem mem_keys_pyDictComp {l : List (String × Option Val)} {k : String}
    (h : k ∈ (pyDictComp l).map Prod.fst) : k ∈ l.map Prod.fst := by
  induction l with
  | nil => simp [pyDictComp] at h
  | cons a rest ih =>
    obtain ⟨n, w⟩ := a
    cases w with
    | none =>
      simp only [pyDictComp] at h
      simp [ih h]
    | some v =>
      simp only [pyDictComp, List.map_cons, List.mem_cons] at h
      rcases h with h | h
      · simp [h]
      · simp [ih h]

/-- A key whose first binding in the comprehension input is None is absent from the keys of
the filtered output, provided the input keys are distinct (as they are in every endpoint
method: the keys are string literals). -/
theorem not_mem_keys_of_lookup_none (l : List (String × Option Val)) (k : String)
    (ks : List String) (hks : l.map Prod.fst = ks) (hnd' : ks.Nodup)
    (h : List.lookup k l = some none) :
    k ∉ (pyDictComp l).map Prod.fst := by
  subst hks
  have hnd := hnd'
  clear hnd'
  induction l with
  | nil => simp [List.lookup] at h
  | cons a rest ih =>
    obtain ⟨n, w⟩ := a
    simp only [List.map_cons, List.nodup_cons] at hnd
    rw [List.lookup] at h
    by_cases hk : k = n
    · subst hk
      simp only [beq_self_eq_true] at h
      have hw : w = (none : Option Val) := by
        simpa using h
      subst hw
      intro hmem
      exact hnd.1 (mem_keys_pyDictComp (by simpa [pyDictComp] using hmem))
    · have hbeq : (k == n) = false := by
        simpa using hk
      rw [hbeq] at h
      have htail := ih h hnd.2
      cases w with
      | none => simpa [pyDictComp] using htail
      | some v =>
        simp only [pyDictComp, List.map_cons, List.mem_cons]
        intro hmem
        rcases hmem with hmem | hmem
        · exact hk hmem
        · exact htail hmem

/-- A key bound to a present value in the comprehension input appears in the filtered
output with exactly that value. -/
theorem mem_pyDictComp_of_lookup_some (l : List (String × Option Val)) (k : String) (v : Val)
    (h : List.lookup k l = some (some v)) : (k, v) ∈ pyDictComp l := by
  induction l with
  | nil => simp [List.lookup] at h
  | cons a rest ih =>
    obtain ⟨n, w⟩ := a
    rw [List.lookup] at h
    by_cases hk : k = n
    · subst hk
      simp only [beq_self_eq_true] at h
      have hw : w = some v := by simpa using h
      subst hw
      simp [pyDictComp]
    · have hbeq : (k == n) = false := by simpa using hk
      rw [hbeq] at h
      have := ih h
      cases w with
      | none => simpa [pyDictComp] using this
      | some u => simp [pyDictComp, this]

/-- The filtered output holds a pair exactly when the input holds it with a present value:
None, and only None, marks absence. -/
theorem mem_pyDictComp_iff (l : List (String × Option Val)) (k : String) (v : Val) :
    (k, v) ∈ pyDictComp l ↔ (k, some v) ∈ l := by
  induction l with
  | nil => simp [pyDictComp]
  | cons a rest ih =>
    obtain ⟨n, w⟩ := a
    cases w with
    | none => simp [pyDictComp, ih]
    | some u => simp [pyDictComp, ih, Prod.ext_iff]


/-- C1: for every endpoint method, a non-success HTTP status from the transport makes
the invocation fail with an UpstreamError carrying that same status code and the raw
response body, with exactly one transport call (no retry, no partial recovery). -/
theorem thm_C1 :
    (∀ (app : YoutubeApp) (jobId : Val) (createdAfter onBehalfOfContentOwner pageSize pageToken startTimeAtOrAfter startTimeBefore : Option Val) (s : Nat) (b : Json),
      ¬(200 ≤ s ∧ s < 300) →
      (get_jobs_job_reports (fun _ => ⟨s, b⟩) app (some jobId) createdAfter onBehalfOfContentOwner pageSize pageToken startTimeAtOrAfter startTimeBefore).result = Except.error (AppError.upstreamError s b)
      ∧ (get_jobs_job_reports (fun _ => ⟨s, b⟩) app (some jobId) createdAfter onBehalfOfContentOwner pageSize pageToken startTimeAtOrAfter startTimeBefore).calls.length = 1)
    ∧
    (∀ (app : YoutubeApp) (jobId reportId : Val) (onBehalfOfContentOwner : Option Val) (s : Nat) (b : Json),
      ¬(200 ≤ s ∧ s < 300) →
      (get_jobs_job_reports_report (fun _ => ⟨s, b⟩) app (some jobId) (some reportId) onBehalfOfContentOwner).result = Except.error (AppError.upstreamError s b)
      ∧ (get_jobs_job_reports_report (fun _ => ⟨s, b⟩) app (some jobId) (some reportId) onBehalfOfContentOwner).calls.length = 1)
    ∧
    (∀ (app : YoutubeApp) (jobId : Val) (onBehalfOfContentOwner : Option Val) (s : Nat) (b : Json),
      ¬(200 ≤ s ∧ s < 300) →
      (delete_jobs_job (fun _ => ⟨s, b⟩) app (some jobId) onBehalfOfContentOwner).result = Except.error (AppError.upstreamError s b)
      ∧ (delete_jobs_job (fun _ => ⟨s, b⟩) app (some jobId) onBehalfOfContentOwner).calls.length = 1)
    ∧
    (∀ (app : YoutubeApp) (includeSystemManaged onBehalfOfContentOwner pageSize pageToken : Option Val) (s : Nat) (b : Json),
      ¬(200 ≤ s ∧ s < 300) →
      (get_jobs (fun _ => ⟨s, b⟩) app includeSystemManaged onBehalfOfContentOwner pageSize pageToken).result = Except.error (AppError.upstreamError s b)
      ∧ (get_jobs (fun _ => ⟨s, b⟩) app includeSystemManaged onBehalfOfContentOwner pageSize pageToken).calls.length = 1)
    ∧
    (∀ (app : YoutubeApp) (resourceName : Val) (s : Nat) (b : Json),
      ¬(200 ≤ s ∧ s < 300) →
      (get_media_resource_name (fun _ => ⟨s, b⟩) app (some resourceName)).result = Except.error (AppError.upstreamError s b)
      ∧ (get_media_resource_name (fun _ => ⟨s, b⟩) app (some resourceName)).calls.length = 1)
    ∧
    (∀ (app : YoutubeApp) (includeSystemManaged onBehalfOfContentOwner pageSize pageToken : Option Val) (s : Nat) (b : Json),
      ¬(200 ≤ s ∧ s < 300) →
      (get_reporttypes (fun _ => ⟨s, b⟩) app includeSystemManaged onBehalfOfContentOwner pageSize pageToken).result = Except.error (AppError.upstreamError s b)
      ∧ (get_reporttypes (fun _ => ⟨s, b⟩) app includeSystemManaged onBehalfOfContentOwner pageSize pageToken).calls.length = 1)
    ∧
    (∀ (app : YoutubeApp) (id onBehalfOf onBehalfOfContentOwner : Option Val) (s : Nat) (b : Json),
      ¬(200 ≤ s ∧ s < 300) →
      (delete_captions (fun _ => ⟨s, b⟩) app id onBehalfOf onBehalfOfContentOwner).result = Except.error (AppError.upstreamError s b)
      ∧ (delete_captions (fun _ => ⟨s, b⟩) app id onBehalfOf onBehalfOfContentOwner).calls.length = 1)
    ∧
    (∀ (app : YoutubeApp) (id : Option Val) (s : Nat) (b : Json),
      ¬(200 ≤ s ∧ s < 300) →
      (delete_comments (fun _ => ⟨s, b⟩) app id).result = Except.error (AppError.upstreamError s b)
      ∧ (delete_comments (fun _ => ⟨s, b⟩) app id).calls.length = 1)
    ∧
    (∀ (app : YoutubeApp) (id : Option Val) (s : Nat) (b : Json),
      ¬(200 ≤ s ∧ s < 300) →
      (add_comments_mark_as_spam (fun _ => ⟨s, b⟩) app id).result = Except.error (AppError.upstreamError s b)
      ∧ (add_comments_mark_as_spam (fun _ => ⟨s, b⟩) app id).calls.length = 1)
    ∧
    (∀ (app : YoutubeApp) (banAuthor id moderationStatus : Option Val) (s : Nat) (b : Json),
      ¬(200 ≤ s ∧ s < 300) →
      (add_comments_set_moderation_status (fun _ => ⟨s, b⟩) app banAuthor id moderationStatus).result = Except.error (AppError.upstreamError s b)
      ∧ (add_comments_set_moderation_status (fun _ => ⟨s, b⟩) app banAuthor id moderationStatus).calls.length = 1)
    ∧
    (∀ (app : YoutubeApp) (id onBehalfOfContentOwner onBehalfOfContentOwnerChannel : Option Val) (s : Nat) (b : Json),
      ¬(200 ≤ s ∧ s < 300) →
      (delete_live_broadcasts (fun _ => ⟨s, b⟩) app id onBehalfOfContentOwner onBehalfOfContentOwnerChannel).result = Except.error (AppError.upstreamError s b)
      ∧ (delete_live_broadcasts (fun _ => ⟨s, b⟩) app id onBehalfOfContentOwner onBehalfOfContentOwnerChannel).calls.length = 1)
    ∧
    (∀ (app : YoutubeApp) (id onBehalfOfContentOwner onBehalfOfContentOwnerChannel part streamId : Option Val) (s : Nat) (b : Json),
      ¬(200 ≤ s ∧ s < 300) →
      (add_live_broadcasts_bind (fun _ => ⟨s, b⟩) app id onBehalfOfContentOwner onBehalfOfContentOwnerChannel part streamId).result = Except.error (AppError.upstreamError s b)
      ∧ (add_live_broadcasts_bind (fun _ => ⟨s, b⟩) app id onBehalfOfContentOwner onBehalfOfContentOwnerChannel part streamId).calls.length = 1)
    ∧
    (∀ (app : YoutubeApp) (displaySlate id offsetTimeMs onBehalfOfContentOwner onBehalfOfContentOwnerChannel part walltime : Option Val) (s : Nat) (b : Json),
      ¬(200 ≤ s ∧ s < 300) →
      (add_live_broadcasts_control (fun _ => ⟨s, b⟩) app displaySlate id offsetTimeMs onBehalfOfContentOwner onBehalfOfContentOwnerChannel part walltime).result = Except.error (AppError.upstreamError s b)
      ∧ (add_live_broadcasts_control (fun _ => ⟨s, b⟩) app displaySlate id offsetTimeMs onBehalfOfContentOwner onBehalfOfContentOwnerChannel part walltime).calls.length = 1)
    ∧
    (∀ (app : YoutubeApp) (broadcastStatus id onBehalfOfContentOwner onBehalfOfContentOwnerChannel part : Option Val) (s : Nat) (b : Json),
      ¬(200 ≤ s ∧ s < 300) →
      (add_live_broadcasts_transition (fun _ => ⟨s, b⟩) app broadcastStatus id onBehalfOfContentOwner onBehalfOfContentOwnerChannel part).result = Except.error (AppError.upstreamError s b)
      ∧ (add_live_broadcasts_transition (fun _ => ⟨s, b⟩) app broadcastStatus id onBehalfOfContentOwner onBehalfOfContentOwnerChannel part).calls.length = 1)
    ∧
    (∀ (app : YoutubeApp) (id : Option Val) (s : Nat) (b : Json),
      ¬(200 ≤ s ∧ s < 300) →
      (delete_live_chat_bans (fun _ => ⟨s, b⟩) app id).result = Except.error (AppError.upstreamError s b)
      ∧ (delete_live_chat_bans (fun _ => ⟨s, b⟩) app id).calls.length = 1)
    ∧
    (∀ (app : YoutubeApp) (id : Option Val) (s : Nat) (b : Json),
      ¬(200 ≤ s ∧ s < 300) →
      (delete_live_chat_messages (fun _ => ⟨s, b⟩) app id).result = Except.error (AppError.upstreamError s b)
      ∧ (delete_live_chat_messages (fun _ => ⟨s, b⟩) app id).calls.length = 1)
    ∧
    (∀ (app : YoutubeApp) (id : Option Val) (s : Nat) (b : Json),
      ¬(200 ≤ s ∧ s < 300) →
      (delete_live_chat_moderators (fun _ => ⟨s, b⟩) app id).result = Except.error (AppError.upstreamError s b)
      ∧ (delete_live_chat_moderators (fun _ => ⟨s, b⟩) app id).calls.length = 1)
    ∧
    (∀ (app : YoutubeApp) (id onBehalfOfContentOwner : Option Val) (s : Nat) (b : Json),
      ¬(200 ≤ s ∧ s < 300) →
      (delete_videos (fun _ => ⟨s, b⟩) app id onBehalfOfContentOwner).result = Except.error (AppError.upstreamError s b)
      ∧ (delete_videos (fun _ => ⟨s, b⟩) app id onBehalfOfContentOwner).calls.length = 1)
    ∧
    (∀ (app : YoutubeApp) (id onBehalfOfContentOwner : Option Val) (s : Nat) (b : Json),
      ¬(200 ≤ s ∧ s < 300) →
      (get_videos_get_rating (fun _ => ⟨s, b⟩) app id onBehalfOfContentOwner).result = Except.error (AppError.upstreamError s b)
      ∧ (get_videos_get_rating (fun _ => ⟨s, b⟩) app id onBehalfOfContentOwner).calls.length = 1)
    ∧
    (∀ (app : YoutubeApp) (id rating : Option Val) (s : Nat) (b : Json),
      ¬(200 ≤ s ∧ s < 300) →
      (add_videos_rate (fun _ => ⟨s, b⟩) app id rating).result = Except.error (AppError.upstreamError s b)
      ∧ (add_videos_rate (fun _ => ⟨s, b⟩) app id rating).calls.length = 1)
    ∧
    (∀ (app : YoutubeApp) (onBehalfOfContentOwner : Option Val) (s : Nat) (b : Json),
      ¬(200 ≤ s ∧ s < 300) →
      (add_videos_report_abuse (fun _ => ⟨s, b⟩) app onBehalfOfContentOwner).result = Except.error (AppError.upstreamError s b)
      ∧ (add_videos_report_abuse (fun _ => ⟨s, b⟩) app onBehalfOfContentOwner).calls.length = 1)
    ∧
    (∀ (app : YoutubeApp) (channelId onBehalfOfContentOwner : Option Val) (s : Nat) (b : Json),
      ¬(200 ≤ s ∧ s < 300) →
      (add_watermarks_set (fun _ => ⟨s, b⟩) app channelId onBehalfOfContentOwner).result = Except.error (AppError.upstreamError s b)
      ∧ (add_watermarks_set (fun _ => ⟨s, b⟩) app channelId onBehalfOfContentOwner).calls.length = 1)
    ∧
    (∀ (app : YoutubeApp) (channelId onBehalfOfContentOwner : Option Val) (s : Nat) (b : Json),
      ¬(200 ≤ s ∧ s < 300) →
      (add_watermarks_unset (fun _ => ⟨s, b⟩) app channelId onBehalfOfContentOwner).result = Except.error (AppError.upstreamError s b)
      ∧ (add_watermarks_unset (fun _ => ⟨s, b⟩) app channelId onBehalfOfContentOwner).calls.length = 1)
    ∧
    (∀ (app : YoutubeApp) (channelId home maxResults mine pageToken part publishedAfter publishedBefore regionCode : Option Val) (s : Nat) (b : Json),
      ¬(200 ≤ s ∧ s < 300) →
      (get_activities (fun _ => ⟨s, b⟩) app channelId home maxResults mine pageToken part publishedAfter publishedBefore regionCode).result = Except.error (AppError.upstreamError s b)
      ∧ (get_activities (fun _ => ⟨s, b⟩) app channelId home maxResults mine pageToken part publishedAfter publishedBefore regionCode).calls.length = 1)
    ∧
    (∀ (app : YoutubeApp) (channelId onBehalfOfContentOwner : Option Val) (s : Nat) (b : Json),
      ¬(200 ≤ s ∧ s < 300) →
      (add_channel_banners_insert (fun _ => ⟨s, b⟩) app channelId onBehalfOfContentOwner).result = Except.error (AppError.upstreamError s b)
      ∧ (add_channel_banners_insert (fun _ => ⟨s, b⟩) app channelId onBehalfOfContentOwner).calls.length = 1)
    ∧
    (∀ (app : YoutubeApp) (id onBehalfOfContentOwner : Option Val) (s : Nat) (b : Json),
      ¬(200 ≤ s ∧ s < 300) →
      (delete_channel_sections (fun _ => ⟨s, b⟩) app id onBehalfOfContentOwner).result = Except.error (AppError.upstreamError s b)
      ∧ (delete_channel_sections (fun _ => ⟨s, b⟩) app id onBehalfOfContentOwner).calls.length = 1)
    ∧
    (∀ (app : YoutubeApp) (categoryId forUsername hl id managedByMe maxResults mine mySubscribers onBehalfOfContentOwner pageToken part : Option Val) (s : Nat) (b : Json),
      ¬(200 ≤ s ∧ s < 300) →
      (get_channels (fun _ => ⟨s, b⟩) app categoryId forUsername hl id managedByMe maxResults mine mySubscribers onBehalfOfContentOwner pageToken part).result = Except.error (AppError.upstreamError s b)
      ∧ (get_channels (fun _ => ⟨s, b⟩) app categoryId forUsername hl id managedByMe maxResults mine mySubscribers onBehalfOfContentOwner pageToken part).calls.length = 1)
    ∧
    (∀ (app : YoutubeApp) (allThreadsRelatedToChannelId channelId id maxResults moderationStatus order pageToken part searchTerms textFormat videoId : Option Val) (s : Nat) (b : Json),
      ¬(200 ≤ s ∧ s < 300) →
      (get_comment_threads (fun _ => ⟨s, b⟩) app allThreadsRelatedToChannelId channelId id maxResults moderationStatus order pageToken part searchTerms textFormat videoId).result = Except.error (AppError.upstreamError s b)
      ∧ (get_comment_threads (fun _ => ⟨s, b⟩) app allThreadsRelatedToChannelId channelId id maxResults moderationStatus order pageToken part searchTerms textFormat videoId).calls.length = 1)
    ∧
    (∀ (app : YoutubeApp) (hl maxResults pageToken part : Option Val) (s : Nat) (b : Json),
      ¬(200 ≤ s ∧ s < 300) →
      (get_fanfundingevents (fun _ => ⟨s, b⟩) app hl maxResults pageToken part).result = Except.error (AppError.upstreamError s b)
      ∧ (get_fanfundingevents (fun _ => ⟨s, b⟩) app hl maxResults pageToken part).calls.length = 1)
    ∧
    (∀ (app : YoutubeApp) (hl id part regionCode : Option Val) (s : Nat) (b : Json),
      ¬(200 ≤ s ∧ s < 300) →
      (get_guecategories (fun _ => ⟨s, b⟩) app hl id part regionCode).result = Except.error (AppError.upstreamError s b)
      ∧ (get_guecategories (fun _ => ⟨s, b⟩) app hl id part regionCode).calls.length = 1)
    ∧
    (∀ (app : YoutubeApp) (hl part : Option Val) (s : Nat) (b : Json),
      ¬(200 ≤ s ∧ s < 300) →
      (get_languages (fun _ => ⟨s, b⟩) app hl part).result = Except.error (AppError.upstreamError s b)
      ∧ (get_languages (fun _ => ⟨s, b⟩) app hl part).calls.length = 1)
    ∧
    (∀ (app : YoutubeApp) (hl part : Option Val) (s : Nat) (b : Json),
      ¬(200 ≤ s ∧ s < 300) →
      (get_regions (fun _ => ⟨s, b⟩) app hl part).result = Except.error (AppError.upstreamError s b)
      ∧ (get_regions (fun _ => ⟨s, b⟩) app hl part).calls.length = 1)
    ∧
    (∀ (app : YoutubeApp) (id onBehalfOfContentOwner onBehalfOfContentOwnerChannel : Option Val) (s : Nat) (b : Json),
      ¬(200 ≤ s ∧ s < 300) →
      (delete_livestreams (fun _ => ⟨s, b⟩) app id onBehalfOfContentOwner onBehalfOfContentOwnerChannel).result = Except.error (AppError.upstreamError s b)
      ∧ (delete_livestreams (fun _ => ⟨s, b⟩) app id onBehalfOfContentOwner onBehalfOfContentOwnerChannel).calls.length = 1)
    ∧
    (∀ (app : YoutubeApp) (id onBehalfOfContentOwner : Option Val) (s : Nat) (b : Json),
      ¬(200 ≤ s ∧ s < 300) →
      (delete_play_list_items (fun _ => ⟨s, b⟩) app id onBehalfOfContentOwner).result = Except.error (AppError.upstreamError s b)
      ∧ (delete_play_list_items (fun _ => ⟨s, b⟩) app id onBehalfOfContentOwner).calls.length = 1)
    ∧
    (∀ (app : YoutubeApp) (id onBehalfOfContentOwner : Option Val) (s : Nat) (b : Json),
      ¬(200 ≤ s ∧ s < 300) →
      (delete_playlists (fun _ => ⟨s, b⟩) app id onBehalfOfContentOwner).result = Except.error (AppError.upstreamError s b)
      ∧ (delete_playlists (fun _ => ⟨s, b⟩) app id onBehalfOfContentOwner).calls.length = 1)
    ∧
    (∀ (app : YoutubeApp) (channelId channelType eventType forContentOwner forDeveloper forMine location locationRadius maxResults onBehalfOfContentOwner order pageToken part publishedAfter publishedBefore q regionCode relatedToVideoId relevanceLanguage safeSearch topicId type videoCaption videoCategoryId videoDefinition videoDimension videoDuration videoEmbeddable videoLicense videoSyndicated videoType : Option Val) (s : Nat) (b : Json),
      ¬(200 ≤ s ∧ s < 300) →
      (get_search (fun _ => ⟨s, b⟩) app channelId channelType eventType forContentOwner forDeveloper forMine location locationRadius maxResults onBehalfOfContentOwner order pageToken part publishedAfter publishedBefore q regionCode relatedToVideoId relevanceLanguage safeSearch topicId type videoCaption videoCategoryId videoDefinition videoDimension videoDuration videoEmbeddable videoLicense videoSyndicated videoType).result = Except.error (AppError.upstreamError s b)
      ∧ (get_search (fun _ => ⟨s, b⟩) app channelId channelType eventType forContentOwner forDeveloper forMine location locationRadius maxResults onBehalfOfContentOwner order pageToken part publishedAfter publishedBefore q regionCode relatedToVideoId relevanceLanguage safeSearch topicId type videoCaption videoCategoryId videoDefinition videoDimension videoDuration videoEmbeddable videoLicense videoSyndicated videoType).calls.length = 1)
    ∧
    (∀ (app : YoutubeApp) (filter maxResults pageToken part : Option Val) (s : Nat) (b : Json),
      ¬(200 ≤ s ∧ s < 300) →
      (get_sponsors (fun _ => ⟨s, b⟩) app filter maxResults pageToken part).result = Except.error (AppError.upstreamError s b)
      ∧ (get_sponsors (fun _ => ⟨s, b⟩) app filter maxResults pageToken part).calls.length = 1)
    ∧
    (∀ (app : YoutubeApp) (id : Option Val) (s : Nat) (b : Json),
      ¬(200 ≤ s ∧ s < 300) →
      (delete_subscriptions (fun _ => ⟨s, b⟩) app id).result = Except.error (AppError.upstreamError s b)
      ∧ (delete_subscriptions (fun _ => ⟨s, b⟩) app id).calls.length = 1)
    ∧
    (∀ (app : YoutubeApp) (hl maxResults pageToken part : Option Val) (s : Nat) (b : Json),
      ¬(200 ≤ s ∧ s < 300) →
      (get_superchatevents (fun _ => ⟨s, b⟩) app hl maxResults pageToken part).result = Except.error (AppError.upstreamError s b)
      ∧ (get_superchatevents (fun _ => ⟨s, b⟩) app hl maxResults pageToken part).calls.length = 1)
    ∧
    (∀ (app : YoutubeApp) (onBehalfOfContentOwner videoId : Option Val) (s : Nat) (b : Json),
      ¬(200 ≤ s ∧ s < 300) →
      (add_thumbnails_set (fun _ => ⟨s, b⟩) app onBehalfOfContentOwner videoId).result = Except.error (AppError.upstreamError s b)
      ∧ (add_thumbnails_set (fun _ => ⟨s, b⟩) app onBehalfOfContentOwner videoId).calls.length = 1)
    ∧
    (∀ (app : YoutubeApp) (hl part : Option Val) (s : Nat) (b : Json),
      ¬(200 ≤ s ∧ s < 300) →
      (get_video_abuse_report_reasons (fun _ => ⟨s, b⟩) app hl part).result = Except.error (AppError.upstreamError s b)
      ∧ (get_video_abuse_report_reasons (fun _ => ⟨s, b⟩) app hl part).calls.length = 1)
    ∧
    (∀ (app : YoutubeApp) (hl id part regionCode : Option Val) (s : Nat) (b : Json),
      ¬(200 ≤ s ∧ s < 300) →
      (get_veocategories (fun _ => ⟨s, b⟩) app hl id part regionCode).result = Except.error (AppError.upstreamError s b)
      ∧ (get_veocategories (fun _ => ⟨s, b⟩) app hl id part regionCode).calls.length = 1)
    ∧
    (∀ (app : YoutubeApp) (id onBehalfOfContentOwner : Option Val) (s : Nat) (b : Json),
      ¬(200 ≤ s ∧ s < 300) →
      (delete_groupitems (fun _ => ⟨s, b⟩) app id onBehalfOfContentOwner).result = Except.error (AppError.upstreamError s b)
      ∧ (delete_groupitems (fun _ => ⟨s, b⟩) app id onBehalfOfContentOwner).calls.length = 1)
    ∧
    (∀ (app : YoutubeApp) (id onBehalfOfContentOwner : Option Val) (s : Nat) (b : Json),
      ¬(200 ≤ s ∧ s < 300) →
      (delete_groups (fun _ => ⟨s, b⟩) app id onBehalfOfContentOwner).result = Except.error (AppError.upstreamError s b)
      ∧ (delete_groups (fun _ => ⟨s, b⟩) app id onBehalfOfContentOwner).calls.length = 1)
    ∧
    (∀ (app : YoutubeApp) (currency dimensions «end» filters ids «include» max metrics sort start : Option Val) (s : Nat) (b : Json),
      ¬(200 ≤ s ∧ s < 300) →
      (get_reports (fun _ => ⟨s, b⟩) app currency dimensions «end» filters ids «include» max metrics sort start).result = Except.error (AppError.upstreamError s b)
      ∧ (get_reports (fun _ => ⟨s, b⟩) app currency dimensions «end» filters ids «include» max metrics sort start).calls.length = 1) :=
  ⟨
    (fun app jobId createdAfter onBehalfOfContentOwner pageSize pageToken startTimeAtOrAfter startTimeBefore s b h => by
      simp [get_jobs_job_reports, httpCall, handle_response, raise_for_status_json, h]),
    (fun app jobId reportId onBehalfOfContentOwner s b h => by
      simp [get_jobs_job_reports_report, httpCall, handle_response, raise_for_status_json, h]),
    (fun app jobId onBehalfOfContentOwner s b h => by
      simp [delete_jobs_job, httpCall, handle_response, raise_for_status_json, h]),
    (fun app includeSystemManaged onBehalfOfContentOwner pageSize pageToken s b h => by
      simp [get_jobs, httpCall, handle_response, raise_for_status_json, h]),
    (fun app resourceName s b h => by
      simp [get_media_resource_name, httpCall, handle_response, raise_for_status_json, h]),
    (fun app includeSystemManaged onBehalfOfContentOwner pageSize pageToken s b h => by
      simp [get_reporttypes, httpCall, handle_response, raise_for_status_json, h]),
    (fun app id onBehalfOf onBehalfOfContentOwner s b h => by
      simp [delete_captions, httpCall, handle_response, raise_for_status_json, h]),
    (fun app id s b h => by
      simp [delete_comments, httpCallHandle, handle_response, raise_for_status_json, h]),
    (fun app id s b h => by
      simp [add_comments_mark_as_spam, httpCall, handle_response, raise_for_status_json, h]),
    (fun app banAuthor id moderationStatus s b h => by
      simp [add_comments_set_moderation_status, httpCall, handle_response, raise_for_status_json, h]),
    (fun app id onBehalfOfContentOwner onBehalfOfContentOwnerChannel s b h => by
      simp [delete_live_broadcasts, httpCall, handle_response, raise_for_status_json, h]),
    (fun app id onBehalfOfContentOwner onBehalfOfContentOwnerChannel part streamId s b h => by
      simp [add_live_broadcasts_bind, httpCall, handle_response, raise_for_status_json, h]),
    (fun app displaySlate id offsetTimeMs onBehalfOfContentOwner onBehalfOfContentOwnerChannel part walltime s b h => by
      simp [add_live_broadcasts_control, httpCall, handle_response, raise_for_status_json, h]),
    (fun app broadcastStatus id onBehalfOfContentOwner onBehalfOfContentOwnerChannel part s b h => by
      simp [add_live_broadcasts_transition, httpCall, handle_response, raise_for_status_json, h]),
    (fun app id s b h => by
      simp [delete_live_chat_bans, httpCall, handle_response, raise_for_status_json, h]),
    (fun app id s b h => by
      simp [delete_live_chat_messages, httpCall, handle_response, raise_for_status_json, h]),
    (fun app id s b h => by
      simp [delete_live_chat_moderators, httpCall, handle_response, raise_for_status_json, h]),
    (fun app id onBehalfOfContentOwner s b h => by
      simp [delete_videos, httpCall, handle_response, raise_for_status_json, h]),
    (fun app id onBehalfOfContentOwner s b h => by
      simp [get_videos_get_rating, httpCall, handle_response, raise_for_status_json, h]),
    (fun app id rating s b h => by
      simp [add_videos_rate, httpCall, handle_response, raise_for_status_json, h]),
    (fun app onBehalfOfContentOwner s b h => by
      simp [add_videos_report_abuse, httpCall, handle_response, raise_for_status_json, h]),
    (fun app channelId onBehalfOfContentOwner s b h => by
      simp [add_watermarks_set, httpCall, handle_response, raise_for_status_json, h]),
    (fun app channelId onBehalfOfContentOwner s b h => by
      simp [add_watermarks_unset, httpCall, handle_response, raise_for_status_json, h]),
    (fun app channelId home maxResults mine pageToken part publishedAfter publishedBefore regionCode s b h => by
      simp [get_activities, httpCall, handle_response, raise_for_status_json, h]),
    (fun app channelId onBehalfOfContentOwner s b h => by
      simp [add_channel_banners_insert, httpCall, handle_response, raise_for_status_json, h]),
    (fun app id onBehalfOfContentOwner s b h => by
      simp [delete_channel_sections, httpCall, handle_response, raise_for_status_json, h]),
    (fun app categoryId forUsername hl id managedByMe maxResults mine mySubscribers onBehalfOfContentOwner pageToken part s b h => by
      simp [get_channels, httpCall, handle_response, raise_for_status_json, h]),
    (fun app allThreadsRelatedToChannelId channelId id maxResults moderationStatus order pageToken part searchTerms textFormat videoId s b h => by
      simp [get_comment_threads, httpCall, handle_response, raise_for_status_json, h]),
    (fun app hl maxResults pageToken part s b h => by
      simp [get_fanfundingevents, httpCall, handle_response, raise_for_status_json, h]),
    (fun app hl id part regionCode s b h => by
      simp [get_guecategories, httpCall, handle_response, raise_for_status_json, h]),
    (fun app hl part s b h => by
      simp [get_languages, httpCall, handle_response, raise_for_status_json, h]),
    (fun app hl part s b h => by
      simp [get_regions, httpCall, handle_response, raise_for_status_json, h]),
    (fun app id onBehalfOfContentOwner onBehalfOfContentOwnerChannel s b h => by
      simp [delete_livestreams, httpCall, handle_response, raise_for_status_json, h]),
    (fun app id onBehalfOfContentOwner s b h => by
      simp [delete_play_list_items, httpCall, handle_response, raise_for_status_json, h]),
    (fun app id onBehalfOfContentOwner s b h => by
      simp [delete_playlists, httpCall, handle_response, raise_for_status_json, h]),
    (fun app channelId channelType eventType forContentOwner forDeveloper forMine location locationRadius maxResults onBehalfOfContentOwner order pageToken part publishedAfter publishedBefore q regionCode relatedToVideoId relevanceLanguage safeSearch topicId type videoCaption videoCategoryId videoDefinition videoDimension videoDuration videoEmbeddable videoLicense videoSyndicated videoType s b h => by
      simp [get_search, httpCall, handle_response, raise_for_status_json, h]),
    (fun app filter maxResults pageToken part s b h => by
      simp [get_sponsors, httpCall, handle_response, raise_for_status_json, h]),
    (fun app id s b h => by
      simp [delete_subscriptions, httpCall, handle_response, raise_for_status_json, h]),
    (fun app hl maxResults pageToken part s b h => by
      simp [get_superchatevents, httpCall, handle_response, raise_for_status_json, h]),
    (fun app onBehalfOfContentOwner videoId s b h => by
      simp [add_thumbnails_set, httpCall, handle_response, raise_for_status_json, h]),
    (fun app hl part s b h => by
      simp [get_video_abuse_report_reasons, httpCall, handle_response, raise_for_status_json, h]),
    (fun app hl id part regionCode s b h => by
      simp [get_veocategories, httpCall, handle_response, raise_for_status_json, h]),
    (fun app id onBehalfOfContentOwner s b h => by
      simp [delete_groupitems, httpCall, handle_response, raise_for_status_json, h]),
    (fun app id onBehalfOfContentOwner s b h => by
      simp [delete_groups, httpCall, handle_response, raise_for_status_json, h]),
    (fun app currency dimensions «end» filters ids «include» max metrics sort start s b h => by
      simp [get_reports, httpCall, handle_response, raise_for_status_json, h])⟩

/-- Witness for thm_C1 at a concrete 404 response. -/
theorem thm_C1_witness :
    (get_jobs_job_reports (fun _ => ⟨404, Json.str "nf"⟩) YoutubeApp.init
        (some (Val.str "j")) none none none none none none).result
      = Except.error (AppError.upstreamError 404 (Json.str "nf"))
    ∧ (get_jobs_job_reports (fun _ => ⟨404, Json.str "nf"⟩) YoutubeApp.init
        (some (Val.str "j")) none none none none none none).calls.length = 1 :=
  thm_C1.1 YoutubeApp.init (Val.str "j") none none none none none none 404 (Json.str "nf")
    (by decide)

/-- C2: for every endpoint method, an optional parameter left unset (None) never appears
as a key of the outgoing query-parameter mapping, and an optional parameter supplied with
a value appears mapped to exactly that value. -/
theorem thm_C2 :
    (∀ (t : Transport) (app : YoutubeApp) (jobId : Val) (createdAfter onBehalfOfContentOwner pageSize pageToken startTimeAtOrAfter startTimeBefore : Option Val) (k : String),
      (List.lookup k [("createdAfter", createdAfter), ("onBehalfOfContentOwner", onBehalfOfContentOwner), ("pageSize", pageSize), ("pageToken", pageToken), ("startTimeAtOrAfter", startTimeAtOrAfter), ("startTimeBefore", startTimeBefore)] = some none →
        k ∉ (sentParams (get_jobs_job_reports t app (some jobId) createdAfter onBehalfOfContentOwner pageSize pageToken startTimeAtOrAfter startTimeBefore)).map Prod.fst)
      ∧ (∀ v : Val, List.lookup k [("createdAfter", createdAfter), ("onBehalfOfContentOwner", onBehalfOfContentOwner), ("pageSize", pageSize), ("pageToken", pageToken), ("startTimeAtOrAfter", startTimeAtOrAfter), ("startTimeBefore", startTimeBefore)] = some (some v) →
        (k, v) ∈ sentParams (get_jobs_job_reports t app (some jobId) createdAfter onBehalfOfContentOwner pageSize pageToken startTimeAtOrAfter startTimeBefore)))
    ∧
    (∀ (t : Transport) (app : YoutubeApp) (jobId reportId : Val) (onBehalfOfContentOwner : Option Val) (k : String),
      (List.lookup k [("onBehalfOfContentOwner", onBehalfOfContentOwner)] = some none →
        k ∉ (sentParams (get_jobs_job_reports_report t app (some jobId) (some reportId) onBehalfOfContentOwner)).map Prod.fst)
      ∧ (∀ v : Val, List.lookup k [("onBehalfOfContentOwner", onBehalfOfContentOwner)] = some (some v) →
        (k, v) ∈ sentParams (get_jobs_job_reports_report t app (some jobId) (some reportId) onBehalfOfContentOwner)))
    ∧
    (∀ (t : Transport) (app : YoutubeApp) (jobId : Val) (onBehalfOfContentOwner : Option Val) (k : String),
      (List.lookup k [("onBehalfOfContentOwner", onBehalfOfContentOwner)] = some none →
        k ∉ (sentParams (delete_jobs_job t app (some jobId) onBehalfOfContentOwner)).map Prod.fst)
      ∧ (∀ v : Val, List.lookup k [("onBehalfOfContentOwner", onBehalfOfContentOwner)] = some (some v) →
        (k, v) ∈ sentParams (delete_jobs_job t app (some jobId) onBehalfOfContentOwner)))
    ∧
    (∀ (t : Transport) (app : YoutubeApp) (includeSystemManaged onBehalfOfContentOwner pageSize pageToken : Option Val) (k : String),
      (List.lookup k [("includeSystemManaged", includeSystemManaged), ("onBehalfOfContentOwner", onBehalfOfContentOwner), ("pageSize", pageSize), ("pageToken", pageToken)] = some none →
        k ∉ (sentParams (get_jobs t app includeSystemManaged onBehalfOfContentOwner pageSize pageToken)).map Prod.fst)
      ∧ (∀ v : Val, List.lookup k [("includeSystemManaged", includeSystemManaged), ("onBehalfOfContentOwner", onBehalfOfContentOwner), ("pageSize", pageSize), ("pageToken", pageToken)] = some (some v) →
        (k, v) ∈ sentParams (get_jobs t app includeSystemManaged onBehalfOfContentOwner pageSize pageToken)))
    ∧
    (∀ (t : Transport) (app : YoutubeApp) (resourceName : Val) (k : String),
      (List.lookup k ([] : List (String × Option Val)) = some none →
        k ∉ (sentParams (get_media_resource_name t app (some resourceName))).map Prod.fst)
      ∧ (∀ v : Val, List.lookup k ([] : List (String × Option Val)) = some (some v) →
        (k, v) ∈ sentParams (get_media_resource_name t app (some resourceName))))
    ∧
    (∀ (t : Transport) (app : YoutubeApp) (includeSystemManaged onBehalfOfContentOwner pageSize pageToken : Option Val) (k : String),
      (List.lookup k [("includeSystemManaged", includeSystemManaged), ("onBehalfOfContentOwner", onBehalfOfContentOwner), ("pageSize", pageSize), ("pageToken", pageToken)] = some none →
        k ∉ (sentParams (get_reporttypes t app includeSystemManaged onBehalfOfContentOwner pageSize pageToken)).map Prod.fst)
      ∧ (∀ v : Val, List.lookup k [("includeSystemManaged", includeSystemManaged), ("onBehalfOfContentOwner", onBehalfOfContentOwner), ("pageSize", pageSize), ("pageToken", pageToken)] = some (some v) →
        (k, v) ∈ sentParams (get_reporttypes t app includeSystemManaged onBehalfOfContentOwner pageSize pageToken)))
    ∧
    (∀ (t : Transport) (app : YoutubeApp) (id onBehalfOf onBehalfOfContentOwner : Option Val) (k : String),
      (List.lookup k [("id", id), ("onBehalfOf", onBehalfOf), ("onBehalfOfContentOwner", onBehalfOfContentOwner)] = some none →
        k ∉ (sentParams (delete_captions t app id onBehalfOf onBehalfOfContentOwner)).map Prod.fst)
      ∧ (∀ v : Val, List.lookup k [("id", id), ("onBehalfOf", onBehalfOf), ("onBehalfOfContentOwner", onBehalfOfContentOwner)] = some (some v) →
        (k, v) ∈ sentParams (delete_captions t app id onBehalfOf onBehalfOfContentOwner)))
    ∧
    (∀ (t : Transport) (app : YoutubeApp) (id : Option Val) (k : String),
      (List.lookup k [("id", id)] = some none →
        k ∉ (sentParams (delete_comments t app id)).map Prod.fst)
      ∧ (∀ v : Val, List.lookup k [("id", id)] = some (some v) →
        (k, v) ∈ sentParams (delete_comments t app id)))
    ∧
    (∀ (t : Transport) (app : YoutubeApp) (id : Option Val) (k : String),
      (List.lookup k [("id", id)] = some none →
        k ∉ (sentParams (add_comments_mark_as_spam t app id)).map Prod.fst)
      ∧ (∀ v : Val, List.lookup k [("id", id)] = some (some v) →
        (k, v) ∈ sentParams (add_comments_mark_as_spam t app id)))
    ∧
    (∀ (t : Transport) (app : YoutubeApp) (banAuthor id moderationStatus : Option Val) (k : String),
      (List.lookup k [("banAuthor", banAuthor), ("id", id), ("moderationStatus", moderationStatus)] = some none →
        k ∉ (sentParams (add_comments_set_moderation_status t app banAuthor id moderationStatus)).map Prod.fst)
      ∧ (∀ v : Val, List.lookup k [("banAuthor", banAuthor), ("id", id), ("moderationStatus", moderationStatus)] = some (some v) →
        (k, v) ∈ sentParams (add_comments_set_moderation_status t app banAuthor id moderationStatus)))
    ∧
    (∀ (t : Transport) (app : YoutubeApp) (id onBehalfOfContentOwner onBehalfOfContentOwnerChannel : Option Val) (k : String),
      (List.lookup k [("id", id), ("onBehalfOfContentOwner", onBehalfOfContentOwner), ("onBehalfOfContentOwnerChannel", onBehalfOfContentOwnerChannel)] = some none →
        k ∉ (sentParams (delete_live_broadcasts t app id onBehalfOfContentOwner onBehalfOfContentOwnerChannel)).map Prod.fst)
      ∧ (∀ v : Val, List.lookup k [("id", id), ("onBehalfOfContentOwner", onBehalfOfContentOwner), ("onBehalfOfContentOwnerChannel", onBehalfOfContentOwnerChannel)] = some (some v) →
        (k, v) ∈ sentParams (delete_live_broadcasts t app id onBehalfOfContentOwner onBehalfOfContentOwnerChannel)))
    ∧
    (∀ (t : Transport) (app : YoutubeApp) (id onBehalfOfContentOwner onBehalfOfContentOwnerChannel part streamId : Option Val) (k : String),
      (List.lookup k [("id", id), ("onBehalfOfContentOwner", onBehalfOfContentOwner), ("onBehalfOfContentOwnerChannel", onBehalfOfContentOwnerChannel), ("part", part), ("streamId", streamId)] = some none →
        k ∉ (sentParams (add_live_broadcasts_bind t app id onBehalfOfContentOwner onBehalfOfContentOwnerChannel part streamId)).map Prod.fst)
      ∧ (∀ v : Val, List.lookup k [("id", id), ("onBehalfOfContentOwner", onBehalfOfContentOwner), ("onBehalfOfContentOwnerChannel", onBehalfOfContentOwnerChannel), ("part", part), ("streamId", streamId)] = some (some v) →
        (k, v) ∈ sentParams (add_live_broadcasts_bind t app id onBehalfOfContentOwner onBehalfOfContentOwnerChannel part streamId)))
    ∧
    (∀ (t : Transport) (app : YoutubeApp) (displaySlate id offsetTimeMs onBehalfOfContentOwner onBehalfOfContentOwnerChannel part walltime : Option Val) (k : String),
      (List.lookup k [("displaySlate", displaySlate), ("id", id), ("offsetTimeMs", offsetTimeMs), ("onBehalfOfContentOwner", onBehalfOfContentOwner), ("onBehalfOfContentOwnerChannel", onBehalfOfContentOwnerChannel), ("part", part), ("walltime", walltime)] = some none →
        k ∉ (sentParams (add_live_broadcasts_control t app displaySlate id offsetTimeMs onBehalfOfContentOwner onBehalfOfContentOwnerChannel part walltime)).map Prod.fst)
      ∧ (∀ v : Val, List.lookup k [("displaySlate", displaySlate), ("id", id), ("offsetTimeMs", offsetTimeMs), ("onBehalfOfContentOwner", onBehalfOfContentOwner), ("onBehalfOfContentOwnerChannel", onBehalfOfContentOwnerChannel), ("part", part), ("walltime", walltime)] = some (some v) →
        (k, v) ∈ sentParams (add_live_broadcasts_control t app displaySlate id offsetTimeMs onBehalfOfContentOwner onBehalfOfContentOwnerChannel part walltime)))
    ∧
    (∀ (t : Transport) (app : YoutubeApp) (broadcastStatus id onBehalfOfContentOwner onBehalfOfContentOwnerChannel part : Option Val) (k : String),
      (List.lookup k [("broadcastStatus", broadcastStatus), ("id", id), ("onBehalfOfContentOwner", onBehalfOfContentOwner), ("onBehalfOfContentOwnerChannel", onBehalfOfContentOwnerChannel), ("part", part)] = some none →
        k ∉ (sentParams (add_live_broadcasts_transition t app broadcastStatus id onBehalfOfContentOwner onBehalfOfContentOwnerChannel part)).map Prod.fst)
      ∧ (∀ v : Val, List.lookup k [("broadcastStatus", broadcastStatus), ("id", id), ("onBehalfOfContentOwner", onBehalfOfContentOwner), ("onBehalfOfContentOwnerChannel", onBehalfOfContentOwnerChannel), ("part", part)] = some (some v) →
        (k, v) ∈ sentParams (add_live_broadcasts_transition t app broadcastStatus id onBehalfOfContentOwner onBehalfOfContentOwnerChannel part)))
    ∧
    (∀ (t : Transport) (app : YoutubeApp) (id : Option Val) (k : String),
      (List.lookup k [("id", id)] = some none →
        k ∉ (sentParams (delete_live_chat_bans t app id)).map Prod.fst)
      ∧ (∀ v : Val, List.lookup k [("id", id)] = some (some v) →
        (k, v) ∈ sentParams (delete_live_chat_bans t app id)))
    ∧
    (∀ (t : Transport) (app : YoutubeApp) (id : Option Val) (k : String),
      (List.lookup k [("id", id)] = some none →
        k ∉ (sentParams (delete_live_chat_messages t app id)).map Prod.fst)
      ∧ (∀ v : Val, List.lookup k [("id", id)] = some (some v) →
        (k, v) ∈ sentParams (delete_live_chat_messages t app id)))
    ∧
    (∀ (t : Transport) (app : YoutubeApp) (id : Option Val) (k : String),
      (List.lookup k [("id", id)] = some none →
        k ∉ (sentParams (delete_live_chat_moderators t app id)).map Prod.fst)
      ∧ (∀ v : Val, List.lookup k [("id", id)] = some (some v) →
        (k, v) ∈ sentParams (delete_live_chat_moderators t app id)))
    ∧
    (∀ (t : Transport) (app : YoutubeApp) (id onBehalfOfContentOwner : Option Val) (k : String),
      (List.lookup k [("id", id), ("onBehalfOfContentOwner", onBehalfOfContentOwner)] = some none →
        k ∉ (sentParams (delete_videos t app id onBehalfOfContentOwner)).map Prod.fst)
      ∧ (∀ v : Val, List.lookup k [("id", id), ("onBehalfOfContentOwner", onBehalfOfContentOwner)] = some (some v) →
        (k, v) ∈ sentParams (delete_videos t app id onBehalfOfContentOwner)))
    ∧
    (∀ (t : Transport) (app : YoutubeApp) (id onBehalfOfContentOwner : Option Val) (k : String),
      (List.lookup k [("id", id), ("onBehalfOfContentOwner", onBehalfOfContentOwner)] = some none →
        k ∉ (sentParams (get_videos_get_rating t app id onBehalfOfContentOwner)).map Prod.fst)
      ∧ (∀ v : Val, List.lookup k [("id", id), ("onBehalfOfContentOwner", onBehalfOfContentOwner)] = some (some v) →
        (k, v) ∈ sentParams (get_videos_get_rating t app id onBehalfOfContentOwner)))
    ∧
    (∀ (t : Transport) (app : YoutubeApp) (id rating : Option Val) (k : String),
      (List.lookup k [("id", id), ("rating", rating)] = some none →
        k ∉ (sentParams (add_videos_rate t app id rating)).map Prod.fst)
      ∧ (∀ v : Val, List.lookup k [("id", id), ("rating", rating)] = some (some v) →
        (k, v) ∈ sentParams (add_videos_rate t app id rating)))
    ∧
    (∀ (t : Transport) (app : YoutubeApp) (onBehalfOfContentOwner : Option Val) (k : String),
      (List.lookup k [("onBehalfOfContentOwner", onBehalfOfContentOwner)] = some none →
        k ∉ (sentParams (add_videos_report_abuse t app onBehalfOfContentOwner)).map Prod.fst)
      ∧ (∀ v : Val, List.lookup k [("onBehalfOfContentOwner", onBehalfOfContentOwner)] = some (some v) →
        (k, v) ∈ sentParams (add_videos_report_abuse t app onBehalfOfContentOwner)))
    ∧
    (∀ (t : Transport) (app : YoutubeApp) (channelId onBehalfOfContentOwner : Option Val) (k : String),
      (List.lookup k [("channelId", channelId), ("onBehalfOfContentOwner", onBehalfOfContentOwner)] = some none →
        k ∉ (sentParams (add_watermarks_set t app channelId onBehalfOfContentOwner)).map Prod.fst)
      ∧ (∀ v : Val, List.lookup k [("channelId", channelId), ("onBehalfOfContentOwner", onBehalfOfContentOwner)] = some (some v) →
        (k, v) ∈ sentParams (add_watermarks_set t app channelId onBehalfOfContentOwner)))
    ∧
    (∀ (t : Transport) (app : YoutubeApp) (channelId onBehalfOfContentOwner : Option Val) (k : String),
      (List.lookup k [("channelId", channelId), ("onBehalfOfContentOwner", onBehalfOfContentOwner)] = some none →
        k ∉ (sentParams (add_watermarks_unset t app channelId onBehalfOfContentOwner)).map Prod.fst)
      ∧ (∀ v : Val, List.lookup k [("channelId", channelId), ("onBehalfOfContentOwner", onBehalfOfContentOwner)] = some (some v) →
        (k, v) ∈ sentParams (add_watermarks_unset t app channelId onBehalfOfContentOwner)))
    ∧
    (∀ (t : Transport) (app : YoutubeApp) (channelId home maxResults mine pageToken part publishedAfter publishedBefore regionCode : Option Val) (k : String),
      (List.lookup k [("channelId", channelId), ("home", home), ("maxResults", maxResults), ("mine", mine), ("pageToken", pageToken), ("part", part), ("publishedAfter", publishedAfter), ("publishedBefore", publishedBefore), ("regionCode", regionCode)] = some none →
        k ∉ (sentParams (get_activities t app channelId home maxResults mine pageToken part publishedAfter publishedBefore regionCode)).map Prod.fst)
      ∧ (∀ v : Val, List.lookup k [("channelId", channelId), ("home", home), ("maxResults", maxResults), ("mine", mine), ("pageToken", pageToken), ("part", part), ("publishedAfter", publishedAfter), ("publishedBefore", publishedBefore), ("regionCode", regionCode)] = some (some v) →
        (k, v) ∈ sentParams (get_activities t app channelId home maxResults mine pageToken part publishedAfter publishedBefore regionCode)))
    ∧
    (∀ (t : Transport) (app : YoutubeApp) (channelId onBehalfOfContentOwner : Option Val) (k : String),
      (List.lookup k [("channelId", channelId), ("onBehalfOfContentOwner", onBehalfOfContentOwner)] = some none →
        k ∉ (sentParams (add_channel_banners_insert t app channelId onBehalfOfContentOwner)).map Prod.fst)
      ∧ (∀ v : Val, List.lookup k [("channelId", channelId), ("onBehalfOfContentOwner", onBehalfOfContentOwner)] = some (some v) →
        (k, v) ∈ sentParams (add_channel_banners_insert t app channelId onBehalfOfContentOwner)))
    ∧
    (∀ (t : Transport) (app : YoutubeApp) (id onBehalfOfContentOwner : Option Val) (k : String),
      (List.lookup k [("id", id), ("onBehalfOfContentOwner", onBehalfOfContentOwner)] = some none →
        k ∉ (sentParams (delete_channel_sections t app id onBehalfOfContentOwner)).map Prod.fst)
      ∧ (∀ v : Val, List.lookup k [("id", id), ("onBehalfOfContentOwner", onBehalfOfContentOwner)] = some (some v) →
        (k, v) ∈ sentParams (delete_channel_sections t app id onBehalfOfContentOwner)))
    ∧
    (∀ (t : Transport) (app : YoutubeApp) (categoryId forUsername hl id managedByMe maxResults mine mySubscribers onBehalfOfContentOwner pageToken part : Option Val) (k : String),
      (List.lookup k [("categoryId", categoryId), ("forUsername", forUsername), ("hl", hl), ("id", id), ("managedByMe", managedByMe), ("maxResults", maxResults), ("mine", mine), ("mySubscribers", mySubscribers), ("onBehalfOfContentOwner", onBehalfOfContentOwner), ("pageToken", pageToken), ("part", part)] = some none →
        k ∉ (sentParams (get_channels t app categoryId forUsername hl id managedByMe maxResults mine mySubscribers onBehalfOfContentOwner pageToken part)).map Prod.fst)
      ∧ (∀ v : Val, List.lookup k [("categoryId", categoryId), ("forUsername", forUsername), ("hl", hl), ("id", id), ("managedByMe", managedByMe), ("maxResults", maxResults), ("mine", mine), ("mySubscribers", mySubscribers), ("onBehalfOfContentOwner", onBehalfOfContentOwner), ("pageToken", pageToken), ("part", part)] = some (some v) →
        (k, v) ∈ sentParams (get_channels t app categoryId forUsername hl id managedByMe maxResults mine mySubscribers onBehalfOfContentOwner pageToken part)))
    ∧
    (∀ (t : Transport) (app : YoutubeApp) (allThreadsRelatedToChannelId channelId id maxResults moderationStatus order pageToken part searchTerms textFormat videoId : Option Val) (k : String),
      (List.lookup k [("allThreadsRelatedToChannelId", allThreadsRelatedToChannelId), ("channelId", channelId), ("id", id), ("maxResults", maxResults), ("moderationStatus", moderationStatus), ("order", order), ("pageToken", pageToken), ("part", part), ("searchTerms", searchTerms), ("textFormat", textFormat), ("videoId", videoId)] = some none →
        k ∉ (sentParams (get_comment_threads t app allThreadsRelatedToChannelId channelId id maxResults moderationStatus order pageToken part searchTerms textFormat videoId)).map Prod.fst)
      ∧ (∀ v : Val, List.lookup k [("allThreadsRelatedToChannelId", allThreadsRelatedToChannelId), ("channelId", channelId), ("id", id), ("maxResults", maxResults), ("moderationStatus", moderationStatus), ("order", order), ("pageToken", pageToken), ("part", part), ("searchTerms", searchTerms), ("textFormat", textFormat), ("videoId", videoId)] = some (some v) →
        (k, v) ∈ sentParams (get_comment_threads t app allThreadsRelatedToChannelId channelId id maxResults moderationStatus order pageToken part searchTerms textFormat videoId)))
    ∧
    (∀ (t : Transport) (app : YoutubeApp) (hl maxResults pageToken part : Option Val) (k : String),
      (List.lookup k [("hl", hl), ("maxResults", maxResults), ("pageToken", pageToken), ("part", part)] = some none →
        k ∉ (sentParams (get_fanfundingevents t app hl maxResults pageToken part)).map Prod.fst)
      ∧ (∀ v : Val, List.lookup k [("hl", hl), ("maxResults", maxResults), ("pageToken", pageToken), ("part", part)] = some (some v) →
        (k, v) ∈ sentParams (get_fanfundingevents t app hl maxResults pageToken part)))
    ∧
    (∀ (t : Transport) (app : YoutubeApp) (hl id part regionCode : Option Val) (k : String),
      (List.lookup k [("hl", hl), ("id", id), ("part", part), ("regionCode", regionCode)] = some none →
        k ∉ (sentParams (get_guecategories t app hl id part regionCode)).map Prod.fst)
      ∧ (∀ v : Val, List.lookup k [("hl", hl), ("id", id), ("part", part), ("regionCode", regionCode)] = some (some v) →
        (k, v) ∈ sentParams (get_guecategories t app hl id part regionCode)))
    ∧
    (∀ (t : Transport) (app : YoutubeApp) (hl part : Option Val) (k : String),
      (List.lookup k [("hl", hl), ("part", part)] = some none →
        k ∉ (sentParams (get_languages t app hl part)).map Prod.fst)
      ∧ (∀ v : Val, List.lookup k [("hl", hl), ("part", part)] = some (some v) →
        (k, v) ∈ sentParams (get_languages t app hl part)))
    ∧
    (∀ (t : Transport) (app : YoutubeApp) (hl part : Option Val) (k : String),
      (List.lookup k [("hl", hl), ("part", part)] = some none →
        k ∉ (sentParams (get_regions t app hl part)).map Prod.fst)
      ∧ (∀ v : Val, List.lookup k [("hl", hl), ("part", part)] = some (some v) →
        (k, v) ∈ sentParams (get_regions t app hl part)))
    ∧
    (∀ (t : Transport) (app : YoutubeApp) (id onBehalfOfContentOwner onBehalfOfContentOwnerChannel : Option Val) (k : String),
      (List.lookup k [("id", id), ("onBehalfOfContentOwner", onBehalfOfContentOwner), ("onBehalfOfContentOwnerChannel", onBehalfOfContentOwnerChannel)] = some none →
        k ∉ (sentParams (delete_livestreams t app id onBehalfOfContentOwner onBehalfOfContentOwnerChannel)).map Prod.fst)
      ∧ (∀ v : Val, List.lookup k [("id", id), ("onBehalfOfContentOwner", onBehalfOfContentOwner), ("onBehalfOfContentOwnerChannel", onBehalfOfContentOwnerChannel)] = some (some v) →
        (k, v) ∈ sentParams (delete_livestreams t app id onBehalfOfContentOwner onBehalfOfContentOwnerChannel)))
    ∧
    (∀ (t : Transport) (app : YoutubeApp) (id onBehalfOfContentOwner : Option Val) (k : String),
      (List.lookup k [("id", id), ("onBehalfOfContentOwner", onBehalfOfContentOwner)] = some none →
        k ∉ (sentParams (delete_play_list_items t app id onBehalfOfContentOwner)).map Prod.fst)
      ∧ (∀ v : Val, List.lookup k [("id", id), ("onBehalfOfContentOwner", onBehalfOfContentOwner)] = some (some v) →
        (k, v) ∈ sentParams (delete_play_list_items t app id onBehalfOfContentOwner)))
    ∧
    (∀ (t : Transport) (app : YoutubeApp) (id onBehalfOfContentOwner : Option Val) (k : String),
      (List.lookup k [("id", id), ("onBehalfOfContentOwner", onBehalfOfContentOwner)] = some none →
        k ∉ (sentParams (delete_playlists t app id onBehalfOfContentOwner)).map Prod.fst)
      ∧ (∀ v : Val, List.lookup k [("id", id), ("onBehalfOfContentOwner", onBehalfOfContentOwner)] = some (some v) →
        (k, v) ∈ sentParams (delete_playlists t app id onBehalfOfContentOwner)))
    ∧
    (∀ (t : Transport) (app : YoutubeApp) (channelId channelType eventType forContentOwner forDeveloper forMine location locationRadius maxResults onBehalfOfContentOwner order pageToken part publishedAfter publishedBefore q regionCode relatedToVideoId relevanceLanguage safeSearch topicId type videoCaption videoCategoryId videoDefinition videoDimension videoDuration videoEmbeddable videoLicense videoSyndicated videoType : Option Val) (k : String),
      (List.lookup k [("channelId", channelId), ("channelType", channelType), ("eventType", eventType), ("forContentOwner", forContentOwner), ("forDeveloper", forDeveloper), ("forMine", forMine), ("location", location), ("locationRadius", locationRadius), ("maxResults", maxResults), ("onBehalfOfContentOwner", onBehalfOfContentOwner), ("order", order), ("pageToken", pageToken), ("part", part), ("publishedAfter", publishedAfter), ("publishedBefore", publishedBefore), ("q", q), ("regionCode", regionCode), ("relatedToVideoId", relatedToVideoId), ("relevanceLanguage", relevanceLanguage), ("safeSearch", safeSearch), ("topicId", topicId), ("type", type), ("videoCaption", videoCaption), ("videoCategoryId", videoCategoryId), ("videoDefinition", videoDefinition), ("videoDimension", videoDimension), ("videoDuration", videoDuration), ("videoEmbeddable", videoEmbeddable), ("videoLicense", videoLicense), ("videoSyndicated", videoSyndicated), ("videoType", videoType)] = some none →
        k ∉ (sentParams (get_search t app channelId channelType eventType forContentOwner forDeveloper forMine location locationRadius maxResults onBehalfOfContentOwner order pageToken part publishedAfter publishedBefore q regionCode relatedToVideoId relevanceLanguage safeSearch topicId type videoCaption videoCategoryId videoDefinition videoDimension videoDuration videoEmbeddable videoLicense videoSyndicated videoType)).map Prod.fst)
      ∧ (∀ v : Val, List.lookup k [("channelId", channelId), ("channelType", channelType), ("eventType", eventType), ("forContentOwner", forContentOwner), ("forDeveloper", forDeveloper), ("forMine", forMine), ("location", location), ("locationRadius", locationRadius), ("maxResults", maxResults), ("onBehalfOfContentOwner", onBehalfOfContentOwner), ("order", order), ("pageToken", pageToken), ("part", part), ("publishedAfter", publishedAfter), ("publishedBefore", publishedBefore), ("q", q), ("regionCode", regionCode), ("relatedToVideoId", relatedToVideoId), ("relevanceLanguage", relevanceLanguage), ("safeSearch", safeSearch), ("topicId", topicId), ("type", type), ("videoCaption", videoCaption), ("videoCategoryId", videoCategoryId), ("videoDefinition", videoDefinition), ("videoDimension", videoDimension), ("videoDuration", videoDuration), ("videoEmbeddable", videoEmbeddable), ("videoLicense", videoLicense), ("videoSyndicated", videoSyndicated), ("videoType", videoType)] = some (some v) →
        (k, v) ∈ sentParams (get_search t app channelId channelType eventType forContentOwner forDeveloper forMine location locationRadius maxResults onBehalfOfContentOwner order pageToken part publishedAfter publishedBefore q regionCode relatedToVideoId relevanceLanguage safeSearch topicId type videoCaption videoCategoryId videoDefinition videoDimension videoDuration videoEmbeddable videoLicense videoSyndicated videoType)))
    ∧
    (∀ (t : Transport) (app : YoutubeApp) (filter maxResults pageToken part : Option Val) (k : String),
      (List.lookup k [("filter", filter), ("maxResults", maxResults), ("pageToken", pageToken), ("part", part)] = some none →
        k ∉ (sentParams (get_sponsors t app filter maxResults pageToken part)).map Prod.fst)
      ∧ (∀ v : Val, List.lookup k [("filter", filter), ("maxResults", maxResults), ("pageToken", pageToken), ("part", part)] = some (some v) →
        (k, v) ∈ sentParams (get_sponsors t app filter maxResults pageToken part)))
    ∧
    (∀ (t : Transport) (app : YoutubeApp) (id : Option Val) (k : String),
      (List.lookup k [("id", id)] = some none →
        k ∉ (sentParams (delete_subscriptions t app id)).map Prod.fst)
      ∧ (∀ v : Val, List.lookup k [("id", id)] = some (some v) →
        (k, v) ∈ sentParams (delete_subscriptions t app id)))
    ∧
    (∀ (t : Transport) (app : YoutubeApp) (hl maxResults pageToken part : Option Val) (k : String),
      (List.lookup k [("hl", hl), ("maxResults", maxResults), ("pageToken", pageToken), ("part", part)] = some none →
        k ∉ (sentParams (get_superchatevents t app hl maxResults pageToken part)).map Prod.fst)
      ∧ (∀ v : Val, List.lookup k [("hl", hl), ("maxResults", maxResults), ("pageToken", pageToken), ("part", part)] = some (some v) →
        (k, v) ∈ sentParams (get_superchatevents t app hl maxResults pageToken part)))
    ∧
    (∀ (t : Transport) (app : YoutubeApp) (onBehalfOfContentOwner videoId : Option Val) (k : String),
      (List.lookup k [("onBehalfOfContentOwner", onBehalfOfContentOwner), ("videoId", videoId)] = some none →
        k ∉ (sentParams (add_thumbnails_set t app onBehalfOfContentOwner videoId)).map Prod.fst)
      ∧ (∀ v : Val, List.lookup k [("onBehalfOfContentOwner", onBehalfOfContentOwner), ("videoId", videoId)] = some (some v) →
        (k, v) ∈ sentParams (add_thumbnails_set t app onBehalfOfContentOwner videoId)))
    ∧
    (∀ (t : Transport) (app : YoutubeApp) (hl part : Option Val) (k : String),
      (List.lookup k [("hl", hl), ("part", part)] = some none →
        k ∉ (sentParams (get_video_abuse_report_reasons t app hl part)).map Prod.fst)
      ∧ (∀ v : Val, List.lookup k [("hl", hl), ("part", part)] = some (some v) →
        (k, v) ∈ sentParams (get_video_abuse_report_reasons t app hl part)))
    ∧
    (∀ (t : Transport) (app : YoutubeApp) (hl id part regionCode : Option Val) (k : String),
      (List.lookup k [("hl", hl), ("id", id), ("part", part), ("regionCode", regionCode)] = some none →
        k ∉ (sentParams (get_veocategories t app hl id part regionCode)).map Prod.fst)
      ∧ (∀ v : Val, List.lookup k [("hl", hl), ("id", id), ("part", part), ("regionCode", regionCode)] = some (some v) →
        (k, v) ∈ sentParams (get_veocategories t app hl id part regionCode)))
    ∧
    (∀ (t : Transport) (app : YoutubeApp) (id onBehalfOfContentOwner : Option Val) (k : String),
      (List.lookup k [("id", id), ("onBehalfOfContentOwner", onBehalfOfContentOwner)] = some none →
        k ∉ (sentParams (delete_groupitems t app id onBehalfOfContentOwner)).map Prod.fst)
      ∧ (∀ v : Val, List.lookup k [("id", id), ("onBehalfOfContentOwner", onBehalfOfContentOwner)] = some (some v) →
        (k, v) ∈ sentParams (delete_groupitems t app id onBehalfOfContentOwner)))
    ∧
    (∀ (t : Transport) (app : YoutubeApp) (id onBehalfOfContentOwner : Option Val) (k : String),
      (List.lookup k [("id", id), ("onBehalfOfContentOwner", onBehalfOfContentOwner)] = some none →
        k ∉ (sentParams (delete_groups t app id onBehalfOfContentOwner)).map Prod.fst)
      ∧ (∀ v : Val, List.lookup k [("id", id), ("onBehalfOfContentOwner", onBehalfOfContentOwner)] = some (some v) →
        (k, v) ∈ sentParams (delete_groups t app id onBehalfOfContentOwner)))
    ∧
    (∀ (t : Transport) (app : YoutubeApp) (currency dimensions «end» filters ids «include» max metrics sort start : Option Val) (k : String),
      (List.lookup k [("currency", currency), ("dimensions", dimensions), ("end", «end»), ("filters", filters), ("ids", ids), ("include", «include»), ("max", max), ("metrics", metrics), ("sort", sort), ("start", start)] = some none →
        k ∉ (sentParams (get_reports t app currency dimensions «end» filters ids «include» max metrics sort start)).map Prod.fst)
      ∧ (∀ v : Val, List.lookup k [("currency", currency), ("dimensions", dimensions), ("end", «end»), ("filters", filters), ("ids", ids), ("include", «include»), ("max", max), ("metrics", metrics), ("sort", sort), ("start", start)] = some (some v) →
        (k, v) ∈ sentParams (get_reports t app currency dimensions «end» filters ids «include» max metrics sort start))) :=
  ⟨
    (fun t app jobId createdAfter onBehalfOfContentOwner pageSize pageToken startTimeAtOrAfter startTimeBefore k => by
      have e : sentParams (get_jobs_job_reports t app (some jobId) createdAfter onBehalfOfContentOwner pageSize pageToken startTimeAtOrAfter startTimeBefore) = pyDictComp [("createdAfter", createdAfter), ("onBehalfOfContentOwner", onBehalfOfContentOwner), ("pageSize", pageSize), ("pageToken", pageToken), ("startTimeAtOrAfter", startTimeAtOrAfter), ("startTimeBefore", startTimeBefore)] := by
        simp [sentParams, get_jobs_job_reports, httpCall, pyDictComp]
      refine ⟨fun hk => ?_, fun v hv => ?_⟩
      · rw [e]
        exact not_mem_keys_of_lookup_none _ _ ["createdAfter", "onBehalfOfContentOwner", "pageSize", "pageToken", "startTimeAtOrAfter", "startTimeBefore"] (by simp) (by decide) hk
      · rw [e]
        exact mem_pyDictComp_of_lookup_some _ _ _ hv),
    (fun t app jobId reportId onBehalfOfContentOwner k => by
      have e : sentParams (get_jobs_job_reports_report t app (some jobId) (some reportId) onBehalfOfContentOwner) = pyDictComp [("onBehalfOfContentOwner", onBehalfOfContentOwner)] := by
        simp [sentParams, get_jobs_job_reports_report, httpCall, pyDictComp]
      refine ⟨fun hk => ?_, fun v hv => ?_⟩
      · rw [e]
        exact not_mem_keys_of_lookup_none _ _ ["onBehalfOfContentOwner"] (by simp) (by decide) hk
      · rw [e]
        exact mem_pyDictComp_of_lookup_some _ _ _ hv),
    (fun t app jobId onBehalfOfContentOwner k => by
      have e : sentParams (delete_jobs_job t app (some jobId) onBehalfOfContentOwner) = pyDictComp [("onBehalfOfContentOwner", onBehalfOfContentOwner)] := by
        simp [sentParams, delete_jobs_job, httpCall, pyDictComp]
      refine ⟨fun hk => ?_, fun v hv => ?_⟩
      · rw [e]
        exact not_mem_keys_of_lookup_none _ _ ["onBehalfOfContentOwner"] (by simp) (by decide) hk
      · rw [e]
        exact mem_pyDictComp_of_lookup_some _ _ _ hv),
    (fun t app includeSystemManaged onBehalfOfContentOwner pageSize pageToken k => by
      have e : sentParams (get_jobs t app includeSystemManaged onBehalfOfContentOwner pageSize pageToken) = pyDictComp [("includeSystemManaged", includeSystemManaged), ("onBehalfOfContentOwner", onBehalfOfContentOwner), ("pageSize", pageSize), ("pageToken", pageToken)] := by
        simp [sentParams, get_jobs, httpCall, pyDictComp]
      refine ⟨fun hk => ?_, fun v hv => ?_⟩
      · rw [e]
        exact not_mem_keys_of_lookup_none _ _ ["includeSystemManaged", "onBehalfOfContentOwner", "pageSize", "pageToken"] (by simp) (by decide) hk
      · rw [e]
        exact mem_pyDictComp_of_lookup_some _ _ _ hv),
    (fun t app resourceName k => by
      have e : sentParams (get_media_resource_name t app (some resourceName)) = pyDictComp ([] : List (String × Option Val)) := by
        simp [sentParams, get_media_resource_name, httpCall, pyDictComp]
      refine ⟨fun hk => ?_, fun v hv => ?_⟩
      · rw [e]
        exact not_mem_keys_of_lookup_none _ _ ([] : List String) (by simp) (by decide) hk
      · rw [e]
        exact mem_pyDictComp_of_lookup_some _ _ _ hv),
    (fun t app includeSystemManaged onBehalfOfContentOwner pageSize pageToken k => by
      have e : sentParams (get_reporttypes t app includeSystemManaged onBehalfOfContentOwner pageSize pageToken) = pyDictComp [("includeSystemManaged", includeSystemManaged), ("onBehalfOfContentOwner", onBehalfOfContentOwner), ("pageSize", pageSize), ("pageToken", pageToken)] := by
        simp [sentParams, get_reporttypes, httpCall, pyDictComp]
      refine ⟨fun hk => ?_, fun v hv => ?_⟩
      · rw [e]
        exact not_mem_keys_of_lookup_none _ _ ["includeSystemManaged", "onBehalfOfContentOwner", "pageSize", "pageToken"] (by simp) (by decide) hk
      · rw [e]
        exact mem_pyDictComp_of_lookup_some _ _ _ hv),
    (fun t app id onBehalfOf onBehalfOfContentOwner k => by
      have e : sentParams (delete_captions t app id onBehalfOf onBehalfOfContentOwner) = pyDictComp [("id", id), ("onBehalfOf", onBehalfOf), ("onBehalfOfContentOwner", onBehalfOfContentOwner)] := by
        simp [sentParams, delete_captions, httpCall, pyDictComp]
      refine ⟨fun hk => ?_, fun v hv => ?_⟩
      · rw [e]
        exact not_mem_keys_of_lookup_none _ _ ["id", "onBehalfOf", "onBehalfOfContentOwner"] (by simp) (by decide) hk
      · rw [e]
        exact mem_pyDictComp_of_lookup_some _ _ _ hv),
    (fun t app id k => by
      have e : sentParams (delete_comments t app id) = pyDictComp [("id", id)] := by
        simp [sentParams, delete_comments, httpCallHandle, pyDictComp]
      refine ⟨fun hk => ?_, fun v hv => ?_⟩
      · rw [e]
        exact not_mem_keys_of_lookup_none _ _ ["id"] (by simp) (by decide) hk
      · rw [e]
        exact mem_pyDictComp_of_lookup_some _ _ _ hv),
    (fun t app id k => by
      have e : sentParams (add_comments_mark_as_spam t app id) = pyDictComp [("id", id)] := by
        simp [sentParams, add_comments_mark_as_spam, httpCall, pyDictComp]
      refine ⟨fun hk => ?_, fun v hv => ?_⟩
      · rw [e]
        exact not_mem_keys_of_lookup_none _ _ ["id"] (by simp) (by decide) hk
      · rw [e]
        exact mem_pyDictComp_of_lookup_some _ _ _ hv),
    (fun t app banAuthor id moderationStatus k => by
      have e : sentParams (add_comments_set_moderation_status t app banAuthor id moderationStatus) = pyDictComp [("banAuthor", banAuthor), ("id", id), ("moderationStatus", moderationStatus)] := by
        simp [sentParams, add_comments_set_moderation_status, httpCall, pyDictComp]
      refine ⟨fun hk => ?_, fun v hv => ?_⟩
      · rw [e]
        exact not_mem_keys_of_lookup_none _ _ ["banAuthor", "id", "moderationStatus"] (by simp) (by decide) hk
      · rw [e]
        exact mem_pyDictComp_of_lookup_some _ _ _ hv),
    (fun t app id onBehalfOfContentOwner onBehalfOfContentOwnerChannel k => by
      have e : sentParams (delete_live_broadcasts t app id onBehalfOfContentOwner onBehalfOfContentOwnerChannel) = pyDictComp [("id", id), ("onBehalfOfContentOwner", onBehalfOfContentOwner), ("onBehalfOfContentOwnerChannel", onBehalfOfContentOwnerChannel)] := by
        simp [sentParams, delete_live_broadcasts, httpCall, pyDictComp]
      refine ⟨fun hk => ?_, fun v hv => ?_⟩
      · rw [e]
        exact not_mem_keys_of_lookup_none _ _ ["id", "onBehalfOfContentOwner", "onBehalfOfContentOwnerChannel"] (by simp) (by decide) hk
      · rw [e]
        exact mem_pyDictComp_of_lookup_some _ _ _ hv),
    (fun t app id onBehalfOfContentOwner onBehalfOfContentOwnerChannel part streamId k => by
      have e : sentParams (add_live_broadcasts_bind t app id onBehalfOfContentOwner onBehalfOfContentOwnerChannel part streamId) = pyDictComp [("id", id), ("onBehalfOfContentOwner", onBehalfOfContentOwner), ("onBehalfOfContentOwnerChannel", onBehalfOfContentOwnerChannel), ("part", part), ("streamId", streamId)] := by
        simp [sentParams, add_live_broadcasts_bind, httpCall, pyDictComp]
      refine ⟨fun hk => ?_, fun v hv => ?_⟩
      · rw [e]
        exact not_mem_keys_of_lookup_none _ _ ["id", "onBehalfOfContentOwner", "onBehalfOfContentOwnerChannel", "part", "streamId"] (by simp) (by decide) hk
      · rw [e]
        exact mem_pyDictComp_of_lookup_some _ _ _ hv),
    (fun t app displaySlate id offsetTimeMs onBehalfOfContentOwner onBehalfOfContentOwnerChannel part walltime k => by
      have e : sentParams (add_live_broadcasts_control t app displaySlate id offsetTimeMs onBehalfOfContentOwner onBehalfOfContentOwnerChannel part walltime) = pyDictComp [("displaySlate", displaySlate), ("id", id), ("offsetTimeMs", offsetTimeMs), ("onBehalfOfContentOwner", onBehalfOfContentOwner), ("onBehalfOfContentOwnerChannel", onBehalfOfContentOwnerChannel), ("part", part), ("walltime", walltime)] := by
        simp [sentParams, add_live_broadcasts_control, httpCall, pyDictComp]
      refine ⟨fun hk => ?_, fun v hv => ?_⟩
      · rw [e]
        exact not_mem_keys_of_lookup_none _ _ ["displaySlate", "id", "offsetTimeMs", "onBehalfOfContentOwner", "onBehalfOfContentOwnerChannel", "part", "walltime"] (by simp) (by decide) hk
      · rw [e]
        exact mem_pyDictComp_of_lookup_some _ _ _ hv),
    (fun t app broadcastStatus id onBehalfOfContentOwner onBehalfOfContentOwnerChannel part k => by
      have e : sentParams (add_live_broadcasts_transition t app broadcastStatus id onBehalfOfContentOwner onBehalfOfContentOwnerChannel part) = pyDictComp [("broadcastStatus", broadcastStatus), ("id", id), ("onBehalfOfContentOwner", onBehalfOfContentOwner), ("onBehalfOfContentOwnerChannel", onBehalfOfContentOwnerChannel), ("part", part)] := by
        simp [sentParams, add_live_broadcasts_transition, httpCall, pyDictComp]
      refine ⟨fun hk => ?_, fun v hv => ?_⟩
      · rw [e]
        exact not_mem_keys_of_lookup_none _ _ ["broadcastStatus", "id", "onBehalfOfContentOwner", "onBehalfOfContentOwnerChannel", "part"] (by simp) (by decide) hk
      · rw [e]
        exact mem_pyDictComp_of_lookup_some _ _ _ hv),
    (fun t app id k => by
      have e : sentParams (delete_live_chat_bans t app id) = pyDictComp [("id", id)] := by
        simp [sentParams, delete_live_chat_bans, httpCall, pyDictComp]
      refine ⟨fun hk => ?_, fun v hv => ?_⟩
      · rw [e]
        exact not_mem_keys_of_lookup_none _ _ ["id"] (by simp) (by decide) hk
      · rw [e]
        exact mem_pyDictComp_of_lookup_some _ _ _ hv),
    (fun t app id k => by
      have e : sentParams (delete_live_chat_messages t app id) = pyDictComp [("id", id)] := by
        simp [sentParams, delete_live_chat_messages, httpCall, pyDictComp]
      refine ⟨fun hk => ?_, fun v hv => ?_⟩
      · rw [e]
        exact not_mem_keys_of_lookup_none _ _ ["id"] (by simp) (by decide) hk
      · rw [e]
        exact mem_pyDictComp_of_lookup_some _ _ _ hv),
    (fun t app id k => by
      have e : sentParams (delete_live_chat_moderators t app id) = pyDictComp [("id", id)] := by
        simp [sentParams, delete_live_chat_moderators, httpCall, pyDictComp]
      refine ⟨fun hk => ?_, fun v hv => ?_⟩
      · rw [e]
        exact not_mem_keys_of_lookup_none _ _ ["id"] (by simp) (by decide) hk
      · rw [e]
        exact mem_pyDictComp_of_lookup_some _ _ _ hv),
    (fun t app id onBehalfOfContentOwner k => by
      have e : sentParams (delete_videos t app id onBehalfOfContentOwner) = pyDictComp [("id", id), ("onBehalfOfContentOwner", onBehalfOfContentOwner)] := by
        simp [sentParams, delete_videos, httpCall, pyDictComp]
      refine ⟨fun hk => ?_, fun v hv => ?_⟩
      · rw [e]
        exact not_mem_keys_of_lookup_none _ _ ["id", "onBehalfOfContentOwner"] (by simp) (by decide) hk
      · rw [e]
        exact mem_pyDictComp_of_lookup_some _ _ _ hv),
    (fun t app id onBehalfOfContentOwner k => by
      have e : sentParams (get_videos_get_rating t app id onBehalfOfContentOwner) = pyDictComp [("id", id), ("onBehalfOfContentOwner", onBehalfOfContentOwner)] := by
        simp [sentParams, get_videos_get_rating, httpCall, pyDictComp]
      refine ⟨fun hk => ?_, fun v hv => ?_⟩
      · rw [e]
        exact not_mem_keys_of_lookup_none _ _ ["id", "onBehalfOfContentOwner"] (by simp) (by decide) hk
      · rw [e]
        exact mem_pyDictComp_of_lookup_some _ _ _ hv),
    (fun t app id rating k => by
      have e : sentParams (add_videos_rate t app id rating) = pyDictComp [("id", id), ("rating", rating)] := by
        simp [sentParams, add_videos_rate, httpCall, pyDictComp]
      refine ⟨fun hk => ?_, fun v hv => ?_⟩
      · rw [e]
        exact not_mem_keys_of_lookup_none _ _ ["id", "rating"] (by simp) (by decide) hk
      · rw [e]
        exact mem_pyDictComp_of_lookup_some _ _ _ hv),
    (fun t app onBehalfOfContentOwner k => by
      have e : sentParams (add_videos_report_abuse t app onBehalfOfContentOwner) = pyDictComp [("onBehalfOfContentOwner", onBehalfOfContentOwner)] := by
        simp [sentParams, add_videos_report_abuse, httpCall, pyDictComp]
      refine ⟨fun hk => ?_, fun v hv => ?_⟩
      · rw [e]
        exact not_mem_keys_of_lookup_none _ _ ["onBehalfOfContentOwner"] (by simp) (by decide) hk
      · rw [e]
        exact mem_pyDictComp_of_lookup_some _ _ _ hv),
    (fun t app channelId onBehalfOfContentOwner k => by
      have e : sentParams (add_watermarks_set t app channelId onBehalfOfContentOwner) = pyDictComp [("channelId", channelId), ("onBehalfOfContentOwner", onBehalfOfContentOwner)] := by
        simp [sentParams, add_watermarks_set, httpCall, pyDictComp]
      refine ⟨fun hk => ?_, fun v hv => ?_⟩
      · rw [e]
        exact not_mem_keys_of_lookup_none _ _ ["channelId", "onBehalfOfContentOwner"] (by simp) (by decide) hk
      · rw [e]
        exact mem_pyDictComp_of_lookup_some _ _ _ hv),
    (fun t app channelId onBehalfOfContentOwner k => by
      have e : sentParams (add_watermarks_unset t app channelId onBehalfOfContentOwner) = pyDictComp [("channelId", channelId), ("onBehalfOfContentOwner", onBehalfOfContentOwner)] := by
        simp [sentParams, add_watermarks_unset, httpCall, pyDictComp]
      refine ⟨fun hk => ?_, fun v hv => ?_⟩
      · rw [e]
        exact not_mem_keys_of_lookup_none _ _ ["channelId", "onBehalfOfContentOwner"] (by simp) (by decide) hk
      · rw [e]
        exact mem_pyDictComp_of_lookup_some _ _ _ hv),
    (fun t app channelId home maxResults mine pageToken part publishedAfter publishedBefore regionCode k => by
      have e : sentParams (get_activities t app channelId home maxResults mine pageToken part publishedAfter publishedBefore regionCode) = pyDictComp [("channelId", channelId), ("home", home), ("maxResults", maxResults), ("mine", mine), ("pageToken", pageToken), ("part", part), ("publishedAfter", publishedAfter), ("publishedBefore", publishedBefore), ("regionCode", regionCode)] := by
        simp [sentParams, get_activities, httpCall, pyDictComp]
      refine ⟨fun hk => ?_, fun v hv => ?_⟩
      · rw [e]
        exact not_mem_keys_of_lookup_none _ _ ["channelId", "home", "maxResults", "mine", "pageToken", "part", "publishedAfter", "publishedBefore", "regionCode"] (by simp) (by decide) hk
      · rw [e]
        exact mem_pyDictComp_of_lookup_some _ _ _ hv),
    (fun t app channelId onBehalfOfContentOwner k => by
      have e : sentParams (add_channel_banners_insert t app channelId onBehalfOfContentOwner) = pyDictComp [("channelId", channelId), ("onBehalfOfContentOwner", onBehalfOfContentOwner)] := by
        simp [sentParams, add_channel_banners_insert, httpCall, pyDictComp]
      refine ⟨fun hk => ?_, fun v hv => ?_⟩
      · rw [e]
        exact not_mem_keys_of_lookup_none _ _ ["channelId", "onBehalfOfContentOwner"] (by simp) (by decide) hk
      · rw [e]
        exact mem_pyDictComp_of_lookup_some _ _ _ hv),
    (fun t app id onBehalfOfContentOwner k => by
      have e : sentParams (delete_channel_sections t app id onBehalfOfContentOwner) = pyDictComp [("id", id), ("onBehalfOfContentOwner", onBehalfOfContentOwner)] := by
        simp [sentParams, delete_channel_sections, httpCall, pyDictComp]
      refine ⟨fun hk => ?_, fun v hv => ?_⟩
      · rw [e]
        exact not_mem_keys_of_lookup_none _ _ ["id", "onBehalfOfContentOwner"] (by simp) (by decide) hk
      · rw [e]
        exact mem_pyDictComp_of_lookup_some _ _ _ hv),
    (fun t app categoryId forUsername hl id managedByMe maxResults mine mySubscribers onBehalfOfContentOwner pageToken part k => by
      have e : sentParams (get_channels t app categoryId forUsername hl id managedByMe maxResults mine mySubscribers onBehalfOfContentOwner pageToken part) = pyDictComp [("categoryId", categoryId), ("forUsername", forUsername), ("hl", hl), ("id", id), ("managedByMe", managedByMe), ("maxResults", maxResults), ("mine", mine), ("mySubscribers", mySubscribers), ("onBehalfOfContentOwner", onBehalfOfContentOwner), ("pageToken", pageToken), ("part", part)] := by
        simp [sentParams, get_channels, httpCall, pyDictComp]
      refine ⟨fun hk => ?_, fun v hv => ?_⟩
      · rw [e]
        exact not_mem_keys_of_lookup_none _ _ ["categoryId", "forUsername", "hl", "id", "managedByMe", "maxResults", "mine", "mySubscribers", "onBehalfOfContentOwner", "pageToken", "part"] (by simp) (by decide) hk
      · rw [e]
        exact mem_pyDictComp_of_lookup_some _ _ _ hv),
    (fun t app allThreadsRelatedToChannelId channelId id maxResults moderationStatus order pageToken part searchTerms textFormat videoId k => by
      have e : sentParams (get_comment_threads t app allThreadsRelatedToChannelId channelId id maxResults moderationStatus order pageToken part searchTerms textFormat videoId) = pyDictComp [("allThreadsRelatedToChannelId", allThreadsRelatedToChannelId), ("channelId", channelId), ("id", id), ("maxResults", maxResults), ("moderationStatus", moderationStatus), ("order", order), ("pageToken", pageToken), ("part", part), ("searchTerms", searchTerms), ("textFormat", textFormat), ("videoId", videoId)] := by
        simp [sentParams, get_comment_threads, httpCall, pyDictComp]
      refine ⟨fun hk => ?_, fun v hv => ?_⟩
      · rw [e]
        exact not_mem_keys_of_lookup_none _ _ ["allThreadsRelatedToChannelId", "channelId", "id", "maxResults", "moderationStatus", "order", "pageToken", "part", "searchTerms", "textFormat", "videoId"] (by simp) (by decide) hk
      · rw [e]
        exact mem_pyDictComp_of_lookup_some _ _ _ hv),
    (fun t app hl maxResults pageToken part k => by
      have e : sentParams (get_fanfundingevents t app hl maxResults pageToken part) = pyDictComp [("hl", hl), ("maxResults", maxResults), ("pageToken", pageToken), ("part", part)] := by
        simp [sentParams, get_fanfundingevents, httpCall, pyDictComp]
      refine ⟨fun hk => ?_, fun v hv => ?_⟩
      · rw [e]
        exact not_mem_keys_of_lookup_none _ _ ["hl", "maxResults", "pageToken", "part"] (by simp) (by decide) hk
      · rw [e]
        exact mem_pyDictComp_of_lookup_some _ _ _ hv),
    (fun t app hl id part regionCode k => by
      have e : sentParams (get_guecategories t app hl id part regionCode) = pyDictComp [("hl", hl), ("id", id), ("part", part), ("regionCode", regionCode)] := by
        simp [sentParams, get_guecategories, httpCall, pyDictComp]
      refine ⟨fun hk => ?_, fun v hv => ?_⟩
      · rw [e]
        exact not_mem_keys_of_lookup_none _ _ ["hl", "id", "part", "regionCode"] (by simp) (by decide) hk
      · rw [e]
        exact mem_pyDictComp_of_lookup_some _ _ _ hv),
    (fun t app hl part k => by
      have e : sentParams (get_languages t app hl part) = pyDictComp [("hl", hl), ("part", part)] := by
        simp [sentParams, get_languages, httpCall, pyDictComp]
      refine ⟨fun hk => ?_, fun v hv => ?_⟩
      · rw [e]
        exact not_mem_keys_of_lookup_none _ _ ["hl", "part"] (by simp) (by decide) hk
      · rw [e]
        exact mem_pyDictComp_of_lookup_some _ _ _ hv),
    (fun t app hl part k => by
      have e : sentParams (get_regions t app hl part) = pyDictComp [("hl", hl), ("part", part)] := by
        simp [sentParams, get_regions, httpCall, pyDictComp]
      refine ⟨fun hk => ?_, fun v hv => ?_⟩
      · rw [e]
        exact not_mem_keys_of_lookup_none _ _ ["hl", "part"] (by simp) (by decide) hk
      · rw [e]
        exact mem_pyDictComp_of_lookup_some _ _ _ hv),
    (fun t app id onBehalfOfContentOwner onBehalfOfContentOwnerChannel k => by
      have e : sentParams (delete_livestreams t app id onBehalfOfContentOwner onBehalfOfContentOwnerChannel) = pyDictComp [("id", id), ("onBehalfOfContentOwner", onBehalfOfContentOwner), ("onBehalfOfContentOwnerChannel", onBehalfOfContentOwnerChannel)] := by
        simp [sentParams, delete_livestreams, httpCall, pyDictComp]
      refine ⟨fun hk => ?_, fun v hv => ?_⟩
      · rw [e]
        exact not_mem_keys_of_lookup_none _ _ ["id", "onBehalfOfContentOwner", "onBehalfOfContentOwnerChannel"] (by simp) (by decide) hk
      · rw [e]
        exact mem_pyDictComp_of_lookup_some _ _ _ hv),
    (fun t app id onBehalfOfContentOwner k => by
      have e : sentParams (delete_play_list_items t app id onBehalfOfContentOwner) = pyDictComp [("id", id), ("onBehalfOfContentOwner", onBehalfOfContentOwner)] := by
        simp [sentParams, delete_play_list_items, httpCall, pyDictComp]
      refine ⟨fun hk => ?_, fun v hv => ?_⟩
      · rw [e]
        exact not_mem_keys_of_lookup_none _ _ ["id", "onBehalfOfContentOwner"] (by simp) (by decide) hk
      · rw [e]
        exact mem_pyDictComp_of_lookup_some _ _ _ hv),
    (fun t app id onBehalfOfContentOwner k => by
      have e : sentParams (delete_playlists t app id onBehalfOfContentOwner) = pyDictComp [("id", id), ("onBehalfOfContentOwner", onBehalfOfContentOwner)] := by
        simp [sentParams, delete_playlists, httpCall, pyDictComp]
      refine ⟨fun hk => ?_, fun v hv => ?_⟩
      · rw [e]
        exact not_mem_keys_of_lookup_none _ _ ["id", "onBehalfOfContentOwner"] (by simp) (by decide) hk
      · rw [e]
        exact mem_pyDictComp_of_lookup_some _ _ _ hv),
    (fun t app channelId channelType eventType forContentOwner forDeveloper forMine location locationRadius maxResults onBehalfOfContentOwner order pageToken part publishedAfter publishedBefore q regionCode relatedToVideoId relevanceLanguage safeSearch topicId type videoCaption videoCategoryId videoDefinition videoDimension videoDuration videoEmbeddable videoLicense videoSyndicated videoType k => by
      have e : sentParams (get_search t app channelId channelType eventType forContentOwner forDeveloper forMine location locationRadius maxResults onBehalfOfContentOwner order pageToken part publishedAfter publishedBefore q regionCode relatedToVideoId relevanceLanguage safeSearch topicId type videoCaption videoCategoryId videoDefinition videoDimension videoDuration videoEmbeddable videoLicense videoSyndicated videoType) = pyDictComp [("channelId", channelId), ("channelType", channelType), ("eventType", eventType), ("forContentOwner", forContentOwner), ("forDeveloper", forDeveloper), ("forMine", forMine), ("location", location), ("locationRadius", locationRadius), ("maxResults", maxResults), ("onBehalfOfContentOwner", onBehalfOfContentOwner), ("order", order), ("pageToken", pageToken), ("part", part), ("publishedAfter", publishedAfter), ("publishedBefore", publishedBefore), ("q", q), ("regionCode", regionCode), ("relatedToVideoId", relatedToVideoId), ("relevanceLanguage", relevanceLanguage), ("safeSearch", safeSearch), ("topicId", topicId), ("type", type), ("videoCaption", videoCaption), ("videoCategoryId", videoCategoryId), ("videoDefinition", videoDefinition), ("videoDimension", videoDimension), ("videoDuration", videoDuration), ("videoEmbeddable", videoEmbeddable), ("videoLicense", videoLicense), ("videoSyndicated", videoSyndicated), ("videoType", videoType)] := by
        simp [sentParams, get_search, httpCall, pyDictComp]
      refine ⟨fun hk => ?_, fun v hv => ?_⟩
      · rw [e]
        exact not_mem_keys_of_lookup_none _ _ ["channelId", "channelType", "eventType", "forContentOwner", "forDeveloper", "forMine", "location", "locationRadius", "maxResults", "onBehalfOfContentOwner", "order", "pageToken", "part", "publishedAfter", "publishedBefore", "q", "regionCode", "relatedToVideoId", "relevanceLanguage", "safeSearch", "topicId", "type", "videoCaption", "videoCategoryId", "videoDefinition", "videoDimension", "videoDuration", "videoEmbeddable", "videoLicense", "videoSyndicated", "videoType"] (by simp) (by decide) hk
      · rw [e]
        exact mem_pyDictComp_of_lookup_some _ _ _ hv),
    (fun t app filter maxResults pageToken part k => by
      have e : sentParams (get_sponsors t app filter maxResults pageToken part) = pyDictComp [("filter", filter), ("maxResults", maxResults), ("pageToken", pageToken), ("part", part)] := by
        simp [sentParams, get_sponsors, httpCall, pyDictComp]
      refine ⟨fun hk => ?_, fun v hv => ?_⟩
      · rw [e]
        exact not_mem_keys_of_lookup_none _ _ ["filter", "maxResults", "pageToken", "part"] (by simp) (by decide) hk
      · rw [e]
        exact mem_pyDictComp_of_lookup_some _ _ _ hv),
    (fun t app id k => by
      have e : sentParams (delete_subscriptions t app id) = pyDictComp [("id", id)] := by
        simp [sentParams, delete_subscriptions, httpCall, pyDictComp]
      refine ⟨fun hk => ?_, fun v hv => ?_⟩
      · rw [e]
        exact not_mem_keys_of_lookup_none _ _ ["id"] (by simp) (by decide) hk
      · rw [e]
        exact mem_pyDictComp_of_lookup_some _ _ _ hv),
    (fun t app hl maxResults pageToken part k => by
      have e : sentParams (get_superchatevents t app hl maxResults pageToken part) = pyDictComp [("hl", hl), ("maxResults", maxResults), ("pageToken", pageToken), ("part", part)] := by
        simp [sentParams, get_superchatevents, httpCall, pyDictComp]
      refine ⟨fun hk => ?_, fun v hv => ?_⟩
      · rw [e]
        exact not_mem_keys_of_lookup_none _ _ ["hl", "maxResults", "pageToken", "part"] (by simp) (by decide) hk
      · rw [e]
        exact mem_pyDictComp_of_lookup_some _ _ _ hv),
    (fun t app onBehalfOfContentOwner videoId k => by
      have e : sentParams (add_thumbnails_set t app onBehalfOfContentOwner videoId) = pyDictComp [("onBehalfOfContentOwner", onBehalfOfContentOwner), ("videoId", videoId)] := by
        simp [sentParams, add_thumbnails_set, httpCall, pyDictComp]
      refine ⟨fun hk => ?_, fun v hv => ?_⟩
      · rw [e]
        exact not_mem_keys_of_lookup_none _ _ ["onBehalfOfContentOwner", "videoId"] (by simp) (by decide) hk
      · rw [e]
        exact mem_pyDictComp_of_lookup_some _ _ _ hv),
    (fun t app hl part k => by
      have e : sentParams (get_video_abuse_report_reasons t app hl part) = pyDictComp [("hl", hl), ("part", part)] := by
        simp [sentParams, get_video_abuse_report_reasons, httpCall, pyDictComp]
      refine ⟨fun hk => ?_, fun v hv => ?_⟩
      · rw [e]
        exact not_mem_keys_of_lookup_none _ _ ["hl", "part"] (by simp) (by decide) hk
      · rw [e]
        exact mem_pyDictComp_of_lookup_some _ _ _ hv),
    (fun t app hl id part regionCode k => by
      have e : sentParams (get_veocategories t app hl id part regionCode) = pyDictComp [("hl", hl), ("id", id), ("part", part), ("regionCode", regionCode)] := by
        simp [sentParams, get_veocategories, httpCall, pyDictComp]
      refine ⟨fun hk => ?_, fun v hv => ?_⟩
      · rw [e]
        exact not_mem_keys_of_lookup_none _ _ ["hl", "id", "part", "regionCode"] (by simp) (by decide) hk
      · rw [e]
        exact mem_pyDictComp_of_lookup_some _ _ _ hv),
    (fun t app id onBehalfOfContentOwner k => by
      have e : sentParams (delete_groupitems t app id onBehalfOfContentOwner) = pyDictComp [("id", id), ("onBehalfOfContentOwner", onBehalfOfContentOwner)] := by
        simp [sentParams, delete_groupitems, httpCall, pyDictComp]
      refine ⟨fun hk => ?_, fun v hv => ?_⟩
      · rw [e]
        exact not_mem_keys_of_lookup_none _ _ ["id", "onBehalfOfContentOwner"] (by simp) (by decide) hk
      · rw [e]
        exact mem_pyDictComp_of_lookup_some _ _ _ hv),
    (fun t app id onBehalfOfContentOwner k => by
      have e : sentParams (delete_groups t app id onBehalfOfContentOwner) = pyDictComp [("id", id), ("onBehalfOfContentOwner", onBehalfOfContentOwner)] := by
        simp [sentParams, delete_groups, httpCall, pyDictComp]
      refine ⟨fun hk => ?_, fun v hv => ?_⟩
      · rw [e]
        exact not_mem_keys_of_lookup_none _ _ ["id", "onBehalfOfContentOwner"] (by simp) (by decide) hk
      · rw [e]
        exact mem_pyDictComp_of_lookup_some _ _ _ hv),
    (fun t app currency dimensions «end» filters ids «include» max metrics sort start k => by
      have e : sentParams (get_reports t app currency dimensions «end» filters ids «include» max metrics sort start) = pyDictComp [("currency", currency), ("dimensions", dimensions), ("end", «end»), ("filters", filters), ("ids", ids), ("include", «include»), ("max", max), ("metrics", metrics), ("sort", sort), ("start", start)] := by
        simp [sentParams, get_reports, httpCall, pyDictComp]
      refine ⟨fun hk => ?_, fun v hv => ?_⟩
      · rw [e]
        exact not_mem_keys_of_lookup_none _ _ ["currency", "dimensions", "end", "filters", "ids", "include", "max", "metrics", "sort", "start"] (by simp) (by decide) hk
      · rw [e]
        exact mem_pyDictComp_of_lookup_some _ _ _ hv)⟩

/-- Witness for thm_C2: with createdAfter unset it is not sent; with pageSize set to 0
the pair is sent. -/
theorem thm_C2_witness :
    "createdAfter" ∉ (sentParams (get_jobs_job_reports (fun _ => ⟨200, Json.null⟩)
        YoutubeApp.init (some (Val.str "j")) none none none none none none)).map Prod.fst
    ∧ ("pageSize", Val.int 0) ∈ sentParams (get_jobs_job_reports (fun _ => ⟨200, Json.null⟩)
        YoutubeApp.init (some (Val.str "j")) none none (some (Val.int 0)) none none none) :=
  ⟨(thm_C2.1 (fun _ => ⟨200, Json.null⟩) YoutubeApp.init (Val.str "j")
      none none none none none none "createdAfter").1 rfl,
   (thm_C2.1 (fun _ => ⟨200, Json.null⟩) YoutubeApp.init (Val.str "j")
      none none (some (Val.int 0)) none none none "pageSize").2 (Val.int 0) rfl⟩

/-- C3: for every endpoint method with required path parameters (get_jobs_job_reports,
get_jobs_job_reports_report, delete_jobs_job, get_media_resource_name), invoking with a
required parameter absent (None) fails with a MissingParameter error naming that
parameter, and no call is issued through the HTTP client. -/
theorem thm_C3 :
    (∀ (t : Transport) (app : YoutubeApp) (createdAfter onBehalfOfContentOwner pageSize pageToken startTimeAtOrAfter startTimeBefore : Option Val),
      (get_jobs_job_reports t app none createdAfter onBehalfOfContentOwner pageSize pageToken startTimeAtOrAfter startTimeBefore).result = Except.error (AppError.missingParameter "jobId")
      ∧ (get_jobs_job_reports t app none createdAfter onBehalfOfContentOwner pageSize pageToken startTimeAtOrAfter startTimeBefore).calls = [])
    ∧
    (∀ (t : Transport) (app : YoutubeApp) (reportId onBehalfOfContentOwner : Option Val),
      (get_jobs_job_reports_report t app none reportId onBehalfOfContentOwner).result = Except.error (AppError.missingParameter "jobId")
      ∧ (get_jobs_job_reports_report t app none reportId onBehalfOfContentOwner).calls = [])
    ∧
    (∀ (t : Transport) (app : YoutubeApp) (jobId : Val) (onBehalfOfContentOwner : Option Val),
      (get_jobs_job_reports_report t app (some jobId) none onBehalfOfContentOwner).result = Except.error (AppError.missingParameter "reportId")
      ∧ (get_jobs_job_reports_report t app (some jobId) none onBehalfOfContentOwner).calls = [])
    ∧
    (∀ (t : Transport) (app : YoutubeApp) (onBehalfOfContentOwner : Option Val),
      (delete_jobs_job t app none onBehalfOfContentOwner).result = Except.error (AppError.missingParameter "jobId")
      ∧ (delete_jobs_job t app none onBehalfOfContentOwner).calls = [])
    ∧
    (∀ (t : Transport) (app : YoutubeApp),
      (get_media_resource_name t app none).result = Except.error (AppError.missingParameter "resourceName")
      ∧ (get_media_resource_name t app none).calls = []) :=
  ⟨
    (fun t app createdAfter onBehalfOfContentOwner pageSize pageToken startTimeAtOrAfter startTimeBefore => by
      simp [get_jobs_job_reports]),
    (fun t app reportId onBehalfOfContentOwner => by
      simp [get_jobs_job_reports_report]),
    (fun t app jobId onBehalfOfContentOwner => by
      simp [get_jobs_job_reports_report]),
    (fun t app onBehalfOfContentOwner => by
      simp [delete_jobs_job]),
    (fun t app => by
      simp [get_media_resource_name])⟩

/-- C6: for every endpoint method, a success (2xx) status from the transport makes the
method return the JSON body of the response unchanged. -/
theorem thm_C6 :
    (∀ (app : YoutubeApp) (jobId : Val) (createdAfter onBehalfOfContentOwner pageSize pageToken startTimeAtOrAfter startTimeBefore : Option Val) (s : Nat) (b : Json),
      200 ≤ s ∧ s < 300 →
      (get_jobs_job_reports (fun _ => ⟨s, b⟩) app (some jobId) createdAfter onBehalfOfContentOwner pageSize pageToken startTimeAtOrAfter startTimeBefore).result = Except.ok b)
    ∧
    (∀ (app : YoutubeApp) (jobId reportId : Val) (onBehalfOfContentOwner : Option Val) (s : Nat) (b : Json),
      200 ≤ s ∧ s < 300 →
      (get_jobs_job_reports_report (fun _ => ⟨s, b⟩) app (some jobId) (some reportId) onBehalfOfContentOwner).result = Except.ok b)
    ∧
    (∀ (app : YoutubeApp) (jobId : Val) (onBehalfOfContentOwner : Option Val) (s : Nat) (b : Json),
      200 ≤ s ∧ s < 300 →
      (delete_jobs_job (fun _ => ⟨s, b⟩) app (some jobId) onBehalfOfContentOwner).result = Except.ok b)
    ∧
    (∀ (app : YoutubeApp) (includeSystemManaged onBehalfOfContentOwner pageSize pageToken : Option Val) (s : Nat) (b : Json),
      200 ≤ s ∧ s < 300 →
      (get_jobs (fun _ => ⟨s, b⟩) app includeSystemManaged onBehalfOfContentOwner pageSize pageToken).result = Except.ok b)
    ∧
    (∀ (app : YoutubeApp) (resourceName : Val) (s : Nat) (b : Json),
      200 ≤ s ∧ s < 300 →
      (get_media_resource_name (fun _ => ⟨s, b⟩) app (some resourceName)).result = Except.ok b)
    ∧
    (∀ (app : YoutubeApp) (includeSystemManaged onBehalfOfContentOwner pageSize pageToken : Option Val) (s : Nat) (b : Json),
      200 ≤ s ∧ s < 300 →
      (get_reporttypes (fun _ => ⟨s, b⟩) app includeSystemManaged onBehalfOfContentOwner pageSize pageToken).result = Except.ok b)
    ∧
    (∀ (app : YoutubeApp) (id onBehalfOf onBehalfOfContentOwner : Option Val) (s : Nat) (b : Json),
      200 ≤ s ∧ s < 300 →
      (delete_captions (fun _ => ⟨s, b⟩) app id onBehalfOf onBehalfOfContentOwner).result = Except.ok b)
    ∧
    (∀ (app : YoutubeApp) (id : Option Val) (s : Nat) (b : Json),
      200 ≤ s ∧ s < 300 →
      (delete_comments (fun _ => ⟨s, b⟩) app id).result = Except.ok b)
    ∧
    (∀ (app : YoutubeApp) (id : Option Val) (s : Nat) (b : Json),
      200 ≤ s ∧ s < 300 →
      (add_comments_mark_as_spam (fun _ => ⟨s, b⟩) app id).result = Except.ok b)
    ∧
    (∀ (app : YoutubeApp) (banAuthor id moderationStatus : Option Val) (s : Nat) (b : Json),
      200 ≤ s ∧ s < 300 →
      (add_comments_set_moderation_status (fun _ => ⟨s, b⟩) app banAuthor id moderationStatus).result = Except.ok b)
    ∧
    (∀ (app : YoutubeApp) (id onBehalfOfContentOwner onBehalfOfContentOwnerChannel : Option Val) (s : Nat) (b : Json),
      200 ≤ s ∧ s < 300 →
      (delete_live_broadcasts (fun _ => ⟨s, b⟩) app id onBehalfOfContentOwner onBehalfOfContentOwnerChannel).result = Except.ok b)
    ∧
    (∀ (app : YoutubeApp) (id onBehalfOfContentOwner onBehalfOfContentOwnerChannel part streamId : Option Val) (s : Nat) (b : Json),
      200 ≤ s ∧ s < 300 →
      (add_live_broadcasts_bind (fun _ => ⟨s, b⟩) app id onBehalfOfContentOwner onBehalfOfContentOwnerChannel part streamId).result = Except.ok b)
    ∧
    (∀ (app : YoutubeApp) (displaySlate id offsetTimeMs onBehalfOfContentOwner onBehalfOfContentOwnerChannel part walltime : Option Val) (s : Nat) (b : Json),
      200 ≤ s ∧ s < 300 →
      (add_live_broadcasts_control (fun _ => ⟨s, b⟩) app displaySlate id offsetTimeMs onBehalfOfContentOwner onBehalfOfContentOwnerChannel part walltime).result = Except.ok b)
    ∧
    (∀ (app : YoutubeApp) (broadcastStatus id onBehalfOfContentOwner onBehalfOfContentOwnerChannel part : Option Val) (s : Nat) (b : Json),
      200 ≤ s ∧ s < 300 →
      (add_live_broadcasts_transition (fun _ => ⟨s, b⟩) app broadcastStatus id onBehalfOfContentOwner onBehalfOfContentOwnerChannel part).result = Except.ok b)
    ∧
    (∀ (app : YoutubeApp) (id : Option Val) (s : Nat) (b : Json),
      200 ≤ s ∧ s < 300 →
      (delete_live_chat_bans (fun _ => ⟨s, b⟩) app id).result = Except.ok b)
    ∧
    (∀ (app : YoutubeApp) (id : Option Val) (s : Nat) (b : Json),
      200 ≤ s ∧ s < 300 →
      (delete_live_chat_messages (fun _ => ⟨s, b⟩) app id).result = Except.ok b)
    ∧
    (∀ (app : YoutubeApp) (id : Option Val) (s : Nat) (b : Json),
      200 ≤ s ∧ s < 300 →
      (delete_live_chat_moderators (fun _ => ⟨s, b⟩) app id).result = Except.ok b)
    ∧
    (∀ (app : YoutubeApp) (id onBehalfOfContentOwner : Option Val) (s : Nat) (b : Json),
      200 ≤ s ∧ s < 300 →
      (delete_videos (fun _ => ⟨s, b⟩) app id onBehalfOfContentOwner).result = Except.ok b)
    ∧
    (∀ (app : YoutubeApp) (id onBehalfOfContentOwner : Option Val) (s : Nat) (b : Json),
      200 ≤ s ∧ s < 300 →
      (get_videos_get_rating (fun _ => ⟨s, b⟩) app id onBehalfOfContentOwner).result = Except.ok b)
    ∧
    (∀ (app : YoutubeApp) (id rating : Option Val) (s : Nat) (b : Json),
      200 ≤ s ∧ s < 300 →
      (add_videos_rate (fun _ => ⟨s, b⟩) app id rating).result = Except.ok b)
    ∧
    (∀ (app : YoutubeApp) (onBehalfOfContentOwner : Option Val) (s : Nat) (b : Json),
      200 ≤ s ∧ s < 300 →
      (add_videos_report_abuse (fun _ => ⟨s, b⟩) app onBehalfOfContentOwner).result = Except.ok b)
    ∧
    (∀ (app : YoutubeApp) (channelId onBehalfOfContentOwner : Option Val) (s : Nat) (b : Json),
      200 ≤ s ∧ s < 300 →
      (add_watermarks_set (fun _ => ⟨s, b⟩) app channelId onBehalfOfContentOwner).result = Except.ok b)
    ∧
    (∀ (app : YoutubeApp) (channelId onBehalfOfContentOwner : Option Val) (s : Nat) (b : Json),
      200 ≤ s ∧ s < 300 →
      (add_watermarks_unset (fun _ => ⟨s, b⟩) app channelId onBehalfOfContentOwner).result = Except.ok b)
    ∧
    (∀ (app : YoutubeApp) (channelId home maxResults mine pageToken part publishedAfter publishedBefore regionCode : Option Val) (s : Nat) (b : Json),
      200 ≤ s ∧ s < 300 →
      (get_activities (fun _ => ⟨s, b⟩) app channelId home maxResults mine pageToken part publishedAfter publishedBefore regionCode).result = Except.ok b)
    ∧
    (∀ (app : YoutubeApp) (channelId onBehalfOfContentOwner : Option Val) (s : Nat) (b : Json),
      200 ≤ s ∧ s < 300 →
      (add_channel_banners_insert (fun _ => ⟨s, b⟩) app channelId onBehalfOfContentOwner).result = Except.ok b)
    ∧
    (∀ (app : YoutubeApp) (id onBehalfOfContentOwner : Option Val) (s : Nat) (b : Json),
      200 ≤ s ∧ s < 300 →
      (delete_channel_sections (fun _ => ⟨s, b⟩) app id onBehalfOfContentOwner).result = Except.ok b)
    ∧
    (∀ (app : YoutubeApp) (categoryId forUsername hl id managedByMe maxResults mine mySubscribers onBehalfOfContentOwner pageToken part : Option Val) (s : Nat) (b : Json),
      200 ≤ s ∧ s < 300 →
      (get_channels (fun _ => ⟨s, b⟩) app categoryId forUsername hl id managedByMe maxResults mine mySubscribers onBehalfOfContentOwner pageToken part).result = Except.ok b)
    ∧
    (∀ (app : YoutubeApp) (allThreadsRelatedToChannelId channelId id maxResults moderationStatus order pageToken part searchTerms textFormat videoId : Option Val) (s : Nat) (b : Json),
      200 ≤ s ∧ s < 300 →
      (get_comment_threads (fun _ => ⟨s, b⟩) app allThreadsRelatedToChannelId channelId id maxResults moderationStatus order pageToken part searchTerms textFormat videoId).result = Except.ok b)
    ∧
    (∀ (app : YoutubeApp) (hl maxResults pageToken part : Option Val) (s : Nat) (b : Json),
      200 ≤ s ∧ s < 300 →
      (get_fanfundingevents (fun _ => ⟨s, b⟩) app hl maxResults pageToken part).result = Except.ok b)
    ∧
    (∀ (app : YoutubeApp) (hl id part regionCode : Option Val) (s : Nat) (b : Json),
      200 ≤ s ∧ s < 300 →
      (get_guecategories (fun _ => ⟨s, b⟩) app hl id part regionCode).result = Except.ok b)
    ∧
    (∀ (app : YoutubeApp) (hl part : Option Val) (s : Nat) (b : Json),
      200 ≤ s ∧ s < 300 →
      (get_languages (fun _ => ⟨s, b⟩) app hl part).result = Except.ok b)
    ∧
    (∀ (app : YoutubeApp) (hl part : Option Val) (s : Nat) (b : Json),
      200 ≤ s ∧ s < 300 →
      (get_regions (fun _ => ⟨s, b⟩) app hl part).result = Except.ok b)
    ∧
    (∀ (app : YoutubeApp) (id onBehalfOfContentOwner onBehalfOfContentOwnerChannel : Option Val) (s : Nat) (b : Json),
      200 ≤ s ∧ s < 300 →
      (delete_livestreams (fun _ => ⟨s, b⟩) app id onBehalfOfContentOwner onBehalfOfContentOwnerChannel).result = Except.ok b)
    ∧
    (∀ (app : YoutubeApp) (id onBehalfOfContentOwner : Option Val) (s : Nat) (b : Json),
      200 ≤ s ∧ s < 300 →
      (delete_play_list_items (fun _ => ⟨s, b⟩) app id onBehalfOfContentOwner).result = Except.ok b)
    ∧
    (∀ (app : YoutubeApp) (id onBehalfOfContentOwner : Option Val) (s : Nat) (b : Json),
      200 ≤ s ∧ s < 300 →
      (delete_playlists (fun _ => ⟨s, b⟩) app id onBehalfOfContentOwner).result = Except.ok b)
    ∧
    (∀ (app : YoutubeApp) (channelId channelType eventType forContentOwner forDeveloper forMine location locationRadius maxResults onBehalfOfContentOwner order pageToken part publishedAfter publishedBefore q regionCode relatedToVideoId relevanceLanguage safeSearch topicId type videoCaption videoCategoryId videoDefinition videoDimension videoDuration videoEmbeddable videoLicense videoSyndicated videoType : Option Val) (s : Nat) (b : Json),
      200 ≤ s ∧ s < 300 →
      (get_search (fun _ => ⟨s, b⟩) app channelId channelType eventType forContentOwner forDeveloper forMine location locationRadius maxResults onBehalfOfContentOwner order pageToken part publishedAfter publishedBefore q regionCode relatedToVideoId relevanceLanguage safeSearch topicId type videoCaption videoCategoryId videoDefinition videoDimension videoDuration videoEmbeddable videoLicense videoSyndicated videoType).result = Except.ok b)
    ∧
    (∀ (app : YoutubeApp) (filter maxResults pageToken part : Option Val) (s : Nat) (b : Json),
      200 ≤ s ∧ s < 300 →
      (get_sponsors (fun _ => ⟨s, b⟩) app filter maxResults pageToken part).result = Except.ok b)
    ∧
    (∀ (app : YoutubeApp) (id : Option Val) (s : Nat) (b : Json),
      200 ≤ s ∧ s < 300 →
      (delete_subscriptions (fun _ => ⟨s, b⟩) app id).result = Except.ok b)
    ∧
    (∀ (app : YoutubeApp) (hl maxResults pageToken part : Option Val) (s : Nat) (b : Json),
      200 ≤ s ∧ s < 300 →
      (get_superchatevents (fun _ => ⟨s, b⟩) app hl maxResults pageToken part).result = Except.ok b)
    ∧
    (∀ (app : YoutubeApp) (onBehalfOfContentOwner videoId : Option Val) (s : Nat) (b : Json),
      200 ≤ s ∧ s < 300 →
      (add_thumbnails_set (fun _ => ⟨s, b⟩) app onBehalfOfContentOwner videoId).result = Except.ok b)
    ∧
    (∀ (app : YoutubeApp) (hl part : Option Val) (s : Nat) (b : Json),
      200 ≤ s ∧ s < 300 →
      (get_video_abuse_report_reasons (fun _ => ⟨s, b⟩) app hl part).result = Except.ok b)
    ∧
    (∀ (app : YoutubeApp) (hl id part regionCode : Option Val) (s : Nat) (b : Json),
      200 ≤ s ∧ s < 300 →
      (get_veocategories (fun _ => ⟨s, b⟩) app hl id part regionCode).result = Except.ok b)
    ∧
    (∀ (app : YoutubeApp) (id onBehalfOfContentOwner : Option Val) (s : Nat) (b : Json),
      200 ≤ s ∧ s < 300 →
      (delete_groupitems (fun _ => ⟨s, b⟩) app id onBehalfOfContentOwner).result = Except.ok b)
    ∧
    (∀ (app : YoutubeApp) (id onBehalfOfContentOwner : Option Val) (s : Nat) (b : Json),
      200 ≤ s ∧ s < 300 →
      (delete_groups (fun _ => ⟨s, b⟩) app id onBehalfOfContentOwner).result = Except.ok b)
    ∧
    (∀ (app : YoutubeApp) (currency dimensions «end» filters ids «include» max metrics sort start : Option Val) (s : Nat) (b : Json),
      200 ≤ s ∧ s < 300 →
      (get_reports (fun _ => ⟨s, b⟩) app currency dimensions «end» filters ids «include» max metrics sort start).result = Except.ok b) :=
  ⟨
    (fun app jobId createdAfter onBehalfOfContentOwner pageSize pageToken startTimeAtOrAfter startTimeBefore s b h => by
      simp [get_jobs_job_reports, httpCall, handle_response, raise_for_status_json, h]),
    (fun app jobId reportId onBehalfOfContentOwner s b h => by
      simp [get_jobs_job_reports_report, httpCall, handle_response, raise_for_status_json, h]),
    (fun app jobId onBehalfOfContentOwner s b h => by
      simp [delete_jobs_job, httpCall, handle_response, raise_for_status_json, h]),
    (fun app includeSystemManaged onBehalfOfContentOwner pageSize pageToken s b h => by
      simp [get_jobs, httpCall, handle_response, raise_for_status_json, h]),
    (fun app resourceName s b h => by
      simp [get_media_resource_name, httpCall, handle_response, raise_for_status_json, h]),
    (fun app includeSystemManaged onBehalfOfContentOwner pageSize pageToken s b h => by
      simp [get_reporttypes, httpCall, handle_response, raise_for_status_json, h]),
    (fun app id onBehalfOf onBehalfOfContentOwner s b h => by
      simp [delete_captions, httpCall, handle_response, raise_for_status_json, h]),
    (fun app id s b h => by
      simp [delete_comments, httpCallHandle, handle_response, raise_for_status_json, h]),
    (fun app id s b h => by
      simp [add_comments_mark_as_spam, httpCall, handle_response, raise_for_status_json, h]),
    (fun app banAuthor id moderationStatus s b h => by
      simp [add_comments_set_moderation_status, httpCall, handle_response, raise_for_status_json, h]),
    (fun app id onBehalfOfContentOwner onBehalfOfContentOwnerChannel s b h => by
      simp [delete_live_broadcasts, httpCall, handle_response, raise_for_status_json, h]),
    (fun app id onBehalfOfContentOwner onBehalfOfContentOwnerChannel part streamId s b h => by
      simp [add_live_broadcasts_bind, httpCall, handle_response, raise_for_status_json, h]),
    (fun app displaySlate id offsetTimeMs onBehalfOfContentOwner onBehalfOfContentOwnerChannel part walltime s b h => by
      simp [add_live_broadcasts_control, httpCall, handle_response, raise_for_status_json, h]),
    (fun app broadcastStatus id onBehalfOfContentOwner onBehalfOfContentOwnerChannel part s b h => by
      simp [add_live_broadcasts_transition, httpCall, handle_response, raise_for_status_json, h]),
    (fun app id s b h => by
      simp [delete_live_chat_bans, httpCall, handle_response, raise_for_status_json, h]),
    (fun app id s b h => by
      simp [delete_live_chat_messages, httpCall, handle_response, raise_for_status_json, h]),
    (fun app id s b h => by
      simp [delete_live_chat_moderators, httpCall, handle_response, raise_for_status_json, h]),
    (fun app id onBehalfOfContentOwner s b h => by
      simp [delete_videos, httpCall, handle_response, raise_for_status_json, h]),
    (fun app id onBehalfOfContentOwner s b h => by
      simp [get_videos_get_rating, httpCall, handle_response, raise_for_status_json, h]),
    (fun app id rating s b h => by
      simp [add_videos_rate, httpCall, handle_response, raise_for_status_json, h]),
    (fun app onBehalfOfContentOwner s b h => by
      simp [add_videos_report_abuse, httpCall, handle_response, raise_for_status_json, h]),
    (fun app channelId onBehalfOfContentOwner s b h => by
      simp [add_watermarks_set, httpCall, handle_response, raise_for_status_json, h]),
    (fun app channelId onBehalfOfContentOwner s b h => by
      simp [add_watermarks_unset, httpCall, handle_response, raise_for_status_json, h]),
    (fun app channelId home maxResults mine pageToken part publishedAfter publishedBefore regionCode s b h => by
      simp [get_activities, httpCall, handle_response, raise_for_status_json, h]),
    (fun app channelId onBehalfOfContentOwner s b h => by
      simp [add_channel_banners_insert, httpCall, handle_response, raise_for_status_json, h]),
    (fun app id onBehalfOfContentOwner s b h => by
      simp [delete_channel_sections, httpCall, handle_response, raise_for_status_json, h]),
    (fun app categoryId forUsername hl id managedByMe maxResults mine mySubscribers onBehalfOfContentOwner pageToken part s b h => by
      simp [get_channels, httpCall, handle_response, raise_for_status_json, h]),
    (fun app allThreadsRelatedToChannelId channelId id maxResults moderationStatus order pageToken part searchTerms textFormat videoId s b h => by
      simp [get_comment_threads, httpCall, handle_response, raise_for_status_json, h]),
    (fun app hl maxResults pageToken part s b h => by
      simp [get_fanfundingevents, httpCall, handle_response, raise_for_status_json, h]),
    (fun app hl id part regionCode s b h => by
      simp [get_guecategories, httpCall, handle_response, raise_for_status_json, h]),
    (fun app hl part s b h => by
      simp [get_languages, httpCall, handle_response, raise_for_status_json, h]),
    (fun app hl part s b h => by
      simp [get_regions, httpCall, handle_response, raise_for_status_json, h]),
    (fun app id onBehalfOfContentOwner onBehalfOfContentOwnerChannel s b h => by
      simp [delete_livestreams, httpCall, handle_response, raise_for_status_json, h]),
    (fun app id onBehalfOfContentOwner s b h => by
      simp [delete_play_list_items, httpCall, handle_response, raise_for_status_json, h]),
    (fun app id onBehalfOfContentOwner s b h => by
      simp [delete_playlists, httpCall, handle_response, raise_for_status_json, h]),
    (fun app channelId channelType eventType forContentOwner forDeveloper forMine location locationRadius maxResults onBehalfOfContentOwner order pageToken part publishedAfter publishedBefore q regionCode relatedToVideoId relevanceLanguage safeSearch topicId type videoCaption videoCategoryId videoDefinition videoDimension videoDuration videoEmbeddable videoLicense videoSyndicated videoType s b h => by
      simp [get_search, httpCall, handle_response, raise_for_status_json, h]),
    (fun app filter maxResults pageToken part s b h => by
      simp [get_sponsors, httpCall, handle_response, raise_for_status_json, h]),
    (fun app id s b h => by
      simp [delete_subscriptions, httpCall, handle_response, raise_for_status_json, h]),
    (fun app hl maxResults pageToken part s b h => by
      simp [get_superchatevents, httpCall, handle_response, raise_for_status_json, h]),
    (fun app onBehalfOfContentOwner videoId s b h => by
      simp [add_thumbnails_set, httpCall, handle_response, raise_for_status_json, h]),
    (fun app hl part s b h => by
      simp [get_video_abuse_report_reasons, httpCall, handle_response, raise_for_status_json, h]),
    (fun app hl id part regionCode s b h => by
      simp [get_veocategories, httpCall, handle_response, raise_for_status_json, h]),
    (fun app id onBehalfOfContentOwner s b h => by
      simp [delete_groupitems, httpCall, handle_response, raise_for_status_json, h]),
    (fun app id onBehalfOfContentOwner s b h => by
      simp [delete_groups, httpCall, handle_response, raise_for_status_json, h]),
    (fun app currency dimensions «end» filters ids «include» max metrics sort start s b h => by
      simp [get_reports, httpCall, handle_response, raise_for_status_json, h])⟩

/-- Witness for thm_C6 at a concrete 200 response with an object body. -/
theorem thm_C6_witness :
    (get_jobs_job_reports (fun _ => ⟨200, Json.obj [("kind", Json.str "r")]⟩)
        YoutubeApp.init (some (Val.str "j")) none none none none none none).result
      = Except.ok (Json.obj [("kind", Json.str "r")]) :=
  thm_C6.1 YoutubeApp.init (Val.str "j") none none none none none none 200
    (Json.obj [("kind", Json.str "r")]) (by decide)

/-- C7: for every endpoint method whose preconditions hold, exactly one call goes through
the HTTP client, with the declared verb, POST calls carrying the empty-object body and
GET/DELETE none, and the application state (base_url) is returned unchanged. -/
theorem thm_C7 :
    (∀ (t : Transport) (app : YoutubeApp) (jobId : Val) (createdAfter onBehalfOfContentOwner pageSize pageToken startTimeAtOrAfter startTimeBefore : Option Val),
      (get_jobs_job_reports t app (some jobId) createdAfter onBehalfOfContentOwner pageSize pageToken startTimeAtOrAfter startTimeBefore).calls.map Request.verb = [Verb.get]
      ∧ (get_jobs_job_reports t app (some jobId) createdAfter onBehalfOfContentOwner pageSize pageToken startTimeAtOrAfter startTimeBefore).calls.map Request.body = [(none : Option Json)]
      ∧ (get_jobs_job_reports t app (some jobId) createdAfter onBehalfOfContentOwner pageSize pageToken startTimeAtOrAfter startTimeBefore).final = app)
    ∧
    (∀ (t : Transport) (app : YoutubeApp) (jobId reportId : Val) (onBehalfOfContentOwner : Option Val),
      (get_jobs_job_reports_report t app (some jobId) (some reportId) onBehalfOfContentOwner).calls.map Request.verb = [Verb.get]
      ∧ (get_jobs_job_reports_report t app (some jobId) (some reportId) onBehalfOfContentOwner).calls.map Request.body = [(none : Option Json)]
      ∧ (get_jobs_job_reports_report t app (some jobId) (some reportId) onBehalfOfContentOwner).final = app)
    ∧
    (∀ (t : Transport) (app : YoutubeApp) (jobId : Val) (onBehalfOfContentOwner : Option Val),
      (delete_jobs_job t app (some jobId) onBehalfOfContentOwner).calls.map Request.verb = [Verb.delete]
      ∧ (delete_jobs_job t app (some jobId) onBehalfOfContentOwner).calls.map Request.body = [(none : Option Json)]
      ∧ (delete_jobs_job t app (some jobId) onBehalfOfContentOwner).final = app)
    ∧
    (∀ (t : Transport) (app : YoutubeApp) (includeSystemManaged onBehalfOfContentOwner pageSize pageToken : Option Val),
      (get_jobs t app includeSystemManaged onBehalfOfContentOwner pageSize pageToken).calls.map Request.verb = [Verb.get]
      ∧ (get_jobs t app includeSystemManaged onBehalfOfContentOwner pageSize pageToken).calls.map Request.body = [(none : Option Json)]
      ∧ (get_jobs t app includeSystemManaged onBehalfOfContentOwner pageSize pageToken).final = app)
    ∧
    (∀ (t : Transport) (app : YoutubeApp) (resourceName : Val),
      (get_media_resource_name t app (some resourceName)).calls.map Request.verb = [Verb.get]
      ∧ (get_media_resource_name t app (some resourceName)).calls.map Request.body = [(none : Option Json)]
      ∧ (get_media_resource_name t app (some resourceName)).final = app)
    ∧
    (∀ (t : Transport) (app : YoutubeApp) (includeSystemManaged onBehalfOfContentOwner pageSize pageToken : Option Val),
      (get_reporttypes t app includeSystemManaged onBehalfOfContentOwner pageSize pageToken).calls.map Request.verb = [Verb.get]
      ∧ (get_reporttypes t app includeSystemManaged onBehalfOfContentOwner pageSize pageToken).calls.map Request.body = [(none : Option Json)]
      ∧ (get_reporttypes t app includeSystemManaged onBehalfOfContentOwner pageSize pageToken).final = app)
    ∧
    (∀ (t : Transport) (app : YoutubeApp) (id onBehalfOf onBehalfOfContentOwner : Option Val),
      (delete_captions t app id onBehalfOf onBehalfOfContentOwner).calls.map Request.verb = [Verb.delete]
      ∧ (delete_captions t app id onBehalfOf onBehalfOfContentOwner).calls.map Request.body = [(none : Option Json)]
      ∧ (delete_captions t app id onBehalfOf onBehalfOfContentOwner).final = app)
    ∧
    (∀ (t : Transport) (app : YoutubeApp) (id : Option Val),
      (delete_comments t app id).calls.map Request.verb = [Verb.delete]
      ∧ (delete_comments t app id).calls.map Request.body = [(none : Option Json)]
      ∧ (delete_comments t app id).final = app)
    ∧
    (∀ (t : Transport) (app : YoutubeApp) (id : Option Val),
      (add_comments_mark_as_spam t app id).calls.map Request.verb = [Verb.post]
      ∧ (add_comments_mark_as_spam t app id).calls.map Request.body = [(some (Json.obj []) : Option Json)]
      ∧ (add_comments_mark_as_spam t app id).final = app)
    ∧
    (∀ (t : Transport) (app : YoutubeApp) (banAuthor id moderationStatus : Option Val),
      (add_comments_set_moderation_status t app banAuthor id moderationStatus).calls.map Request.verb = [Verb.post]
      ∧ (add_comments_set_moderation_status t app banAuthor id moderationStatus).calls.map Request.body = [(some (Json.obj []) : Option Json)]
      ∧ (add_comments_set_moderation_status t app banAuthor id moderationStatus).final = app)
    ∧
    (∀ (t : Transport) (app : YoutubeApp) (id onBehalfOfContentOwner onBehalfOfContentOwnerChannel : Option Val),
      (delete_live_broadcasts t app id onBehalfOfContentOwner onBehalfOfContentOwnerChannel).calls.map Request.verb = [Verb.delete]
      ∧ (delete_live_broadcasts t app id onBehalfOfContentOwner onBehalfOfContentOwnerChannel).calls.map Request.body = [(none : Option Json)]
      ∧ (delete_live_broadcasts t app id onBehalfOfContentOwner onBehalfOfContentOwnerChannel).final = app)
    ∧
    (∀ (t : Transport) (app : YoutubeApp) (id onBehalfOfContentOwner onBehalfOfContentOwnerChannel part streamId : Option Val),
      (add_live_broadcasts_bind t app id onBehalfOfContentOwner onBehalfOfContentOwnerChannel part streamId).calls.map Request.verb = [Verb.post]
      ∧ (add_live_broadcasts_bind t app id onBehalfOfContentOwner onBehalfOfContentOwnerChannel part streamId).calls.map Request.body = [(some (Json.obj []) : Option Json)]
      ∧ (add_live_broadcasts_bind t app id onBehalfOfContentOwner onBehalfOfContentOwnerChannel part streamId).final = app)
    ∧
    (∀ (t : Transport) (app : YoutubeApp) (displaySlate id offsetTimeMs onBehalfOfContentOwner onBehalfOfContentOwnerChannel part walltime : Option Val),
      (add_live_broadcasts_control t app displaySlate id offsetTimeMs onBehalfOfContentOwner onBehalfOfContentOwnerChannel part walltime).calls.map Request.verb = [Verb.post]
      ∧ (add_live_broadcasts_control t app displaySlate id offsetTimeMs onBehalfOfContentOwner onBehalfOfContentOwnerChannel part walltime).calls.map Request.body = [(some (Json.obj []) : Option Json)]
      ∧ (add_live_broadcasts_control t app displaySlate id offsetTimeMs onBehalfOfContentOwner onBehalfOfContentOwnerChannel part walltime).final = app)
    ∧
    (∀ (t : Transport) (app : YoutubeApp) (broadcastStatus id onBehalfOfContentOwner onBehalfOfContentOwnerChannel part : Option Val),
      (add_live_broadcasts_transition t app broadcastStatus id onBehalfOfContentOwner onBehalfOfContentOwnerChannel part).calls.map Request.verb = [Verb.post]
      ∧ (add_live_broadcasts_transition t app broadcastStatus id onBehalfOfContentOwner onBehalfOfContentOwnerChannel part).calls.map Request.body = [(some (Json.obj []) : Option Json)]
      ∧ (add_live_broadcasts_transition t app broadcastStatus id onBehalfOfContentOwner onBehalfOfContentOwnerChannel part).final = app)
    ∧
    (∀ (t : Transport) (app : YoutubeApp) (id : Option Val),
      (delete_live_chat_bans t app id).calls.map Request.verb = [Verb.delete]
      ∧ (delete_live_chat_bans t app id).calls.map Request.body = [(none : Option Json)]
      ∧ (delete_live_chat_bans t app id).final = app)
    ∧
    (∀ (t : Transport) (app : YoutubeApp) (id : Option Val),
      (delete_live_chat_messages t app id).calls.map Request.verb = [Verb.delete]
      ∧ (delete_live_chat_messages t app id).calls.map Request.body = [(none : Option Json)]
      ∧ (delete_live_chat_messages t app id).final = app)
    ∧
    (∀ (t : Transport) (app : YoutubeApp) (id : Option Val),
      (delete_live_chat_moderators t app id).calls.map Request.verb = [Verb.delete]
      ∧ (delete_live_chat_moderators t app id).calls.map Request.body = [(none : Option Json)]
      ∧ (delete_live_chat_moderators t app id).final = app)
    ∧
    (∀ (t : Transport) (app : YoutubeApp) (id onBehalfOfContentOwner : Option Val),
      (delete_videos t app id onBehalfOfContentOwner).calls.map Request.verb = [Verb.delete]
      ∧ (delete_videos t app id onBehalfOfContentOwner).calls.map Request.body = [(none : Option Json)]
      ∧ (delete_videos t app id onBehalfOfContentOwner).final = app)
    ∧
    (∀ (t : Transport) (app : YoutubeApp) (id onBehalfOfContentOwner : Option Val),
      (get_videos_get_rating t app id onBehalfOfContentOwner).calls.map Request.verb = [Verb.get]
      ∧ (get_videos_get_rating t app id onBehalfOfContentOwner).calls.map Request.body = [(none : Option Json)]
      ∧ (get_videos_get_rating t app id onBehalfOfContentOwner).final = app)
    ∧
    (∀ (t : Transport) (app : YoutubeApp) (id rating : Option Val),
      (add_videos_rate t app id rating).calls.map Request.verb = [Verb.post]
      ∧ (add_videos_rate t app id rating).calls.map Request.body = [(some (Json.obj []) : Option Json)]
      ∧ (add_videos_rate t app id rating).final = app)
    ∧
    (∀ (t : Transport) (app : YoutubeApp) (onBehalfOfContentOwner : Option Val),
      (add_videos_report_abuse t app onBehalfOfContentOwner).calls.map Request.verb = [Verb.post]
      ∧ (add_videos_report_abuse t app onBehalfOfContentOwner).calls.map Request.body = [(some (Json.obj []) : Option Json)]
      ∧ (add_videos_report_abuse t app onBehalfOfContentOwner).final = app)
    ∧
    (∀ (t : Transport) (app : YoutubeApp) (channelId onBehalfOfContentOwner : Option Val),
      (add_watermarks_set t app channelId onBehalfOfContentOwner).calls.map Request.verb = [Verb.post]
      ∧ (add_watermarks_set t app channelId onBehalfOfContentOwner).calls.map Request.body = [(some (Json.obj []) : Option Json)]
      ∧ (add_watermarks_set t app channelId onBehalfOfContentOwner).final = app)
    ∧
    (∀ (t : Transport) (app : YoutubeApp) (channelId onBehalfOfContentOwner : Option Val),
      (add_watermarks_unset t app channelId onBehalfOfContentOwner).calls.map Request.verb = [Verb.post]
      ∧ (add_watermarks_unset t app channelId onBehalfOfContentOwner).calls.map Request.body = [(some (Json.obj []) : Option Json)]
      ∧ (add_watermarks_unset t app channelId onBehalfOfContentOwner).final = app)
    ∧
    (∀ (t : Transport) (app : YoutubeApp) (channelId home maxResults mine pageToken part publishedAfter publishedBefore regionCode : Option Val),
      (get_activities t app channelId home maxResults mine pageToken part publishedAfter publishedBefore regionCode).calls.map Request.verb = [Verb.get]
      ∧ (get_activities t app channelId home maxResults mine pageToken part publishedAfter publishedBefore regionCode).calls.map Request.body = [(none : Option Json)]
      ∧ (get_activities t app channelId home maxResults mine pageToken part publishedAfter publishedBefore regionCode).final = app)
    ∧
    (∀ (t : Transport) (app : YoutubeApp) (channelId onBehalfOfContentOwner : Option Val),
      (add_channel_banners_insert t app channelId onBehalfOfContentOwner).calls.map Request.verb = [Verb.post]
      ∧ (add_channel_banners_insert t app channelId onBehalfOfContentOwner).calls.map Request.body = [(some (Json.obj []) : Option Json)]
      ∧ (add_channel_banners_insert t app channelId onBehalfOfContentOwner).final = app)
    ∧
    (∀ (t : Transport) (app : YoutubeApp) (id onBehalfOfContentOwner : Option Val),
      (delete_channel_sections t app id onBehalfOfContentOwner).calls.map Request.verb = [Verb.delete]
      ∧ (delete_channel_sections t app id onBehalfOfContentOwner).calls.map Request.body = [(none : Option Json)]
      ∧ (delete_channel_sections t app id onBehalfOfContentOwner).final = app)
    ∧
    (∀ (t : Transport) (app : YoutubeApp) (categoryId forUsername hl id managedByMe maxResults mine mySubscribers onBehalfOfContentOwner pageToken part : Option Val),
      (get_channels t app categoryId forUsername hl id managedByMe maxResults mine mySubscribers onBehalfOfContentOwner pageToken part).calls.map Request.verb = [Verb.get]
      ∧ (get_channels t app categoryId forUsername hl id managedByMe maxResults mine mySubscribers onBehalfOfContentOwner pageToken part).calls.map Request.body = [(none : Option Json)]
      ∧ (get_channels t app categoryId forUsername hl id managedByMe maxResults mine mySubscribers onBehalfOfContentOwner pageToken part).final = app)
    ∧
    (∀ (t : Transport) (app : YoutubeApp) (allThreadsRelatedToChannelId channelId id maxResults moderationStatus order pageToken part searchTerms textFormat videoId : Option Val),
      (get_comment_threads t app allThreadsRelatedToChannelId channelId id maxResults moderationStatus order pageToken part searchTerms textFormat videoId).calls.map Request.verb = [Verb.get]
      ∧ (get_comment_threads t app allThreadsRelatedToChannelId channelId id maxResults moderationStatus order pageToken part searchTerms textFormat videoId).calls.map Request.body = [(none : Option Json)]
      ∧ (get_comment_threads t app allThreadsRelatedToChannelId channelId id maxResults moderationStatus order pageToken part searchTerms textFormat videoId).final = app)
    ∧
    (∀ (t : Transport) (app : YoutubeApp) (hl maxResults pageToken part : Option Val),
      (get_fanfundingevents t app hl maxResults pageToken part).calls.map Request.verb = [Verb.get]
      ∧ (get_fanfundingevents t app hl maxResults pageToken part).calls.map Request.body = [(none : Option Json)]
      ∧ (get_fanfundingevents t app hl maxResults pageToken part).final = app)
    ∧
    (∀ (t : Transport) (app : YoutubeApp) (hl id part regionCode : Option Val),
      (get_guecategories t app hl id part regionCode).calls.map Request.verb = [Verb.get]
      ∧ (get_guecategories t app hl id part regionCode).calls.map Request.body = [(none : Option Json)]
      ∧ (get_guecategories t app hl id part regionCode).final = app)
    ∧
    (∀ (t : Transport) (app : YoutubeApp) (hl part : Option Val),
      (get_languages t app hl part).calls.map Request.verb = [Verb.get]
      ∧ (get_languages t app hl part).calls.map Request.body = [(none : Option Json)]
      ∧ (get_languages t app hl part).final = app)
    ∧
    (∀ (t : Transport) (app : YoutubeApp) (hl part : Option Val),
      (get_regions t app hl part).calls.map Request.verb = [Verb.get]
      ∧ (get_regions t app hl part).calls.map Request.body = [(none : Option Json)]
      ∧ (get_regions t app hl part).final = app)
    ∧
    (∀ (t : Transport) (app : YoutubeApp) (id onBehalfOfContentOwner onBehalfOfContentOwnerChannel : Option Val),
      (delete_livestreams t app id onBehalfOfContentOwner onBehalfOfContentOwnerChannel).calls.map Request.verb = [Verb.delete]
      ∧ (delete_livestreams t app id onBehalfOfContentOwner onBehalfOfContentOwnerChannel).calls.map Request.body = [(none : Option Json)]
      ∧ (delete_livestreams t app id onBehalfOfContentOwner onBehalfOfContentOwnerChannel).final = app)
    ∧
    (∀ (t : Transport) (app : YoutubeApp) (id onBehalfOfContentOwner : Option Val),
      (delete_play_list_items t app id onBehalfOfContentOwner).calls.map Request.verb = [Verb.delete]
      ∧ (delete_play_list_items t app id onBehalfOfContentOwner).calls.map Request.body = [(none : Option Json)]
      ∧ (delete_play_list_items t app id onBehalfOfContentOwner).final = app)
    ∧
    (∀ (t : Transport) (app : YoutubeApp) (id onBehalfOfContentOwner : Option Val),
      (delete_playlists t app id onBehalfOfContentOwner).calls.map Request.verb = [Verb.delete]
      ∧ (delete_playlists t app id onBehalfOfContentOwner).calls.map Request.body = [(none : Option Json)]
      ∧ (delete_playlists t app id onBehalfOfContentOwner).final = app)
    ∧
    (∀ (t : Transport) (app : YoutubeApp) (channelId channelType eventType forContentOwner forDeveloper forMine location locationRadius maxResults onBehalfOfContentOwner order pageToken part publishedAfter publishedBefore q regionCode relatedToVideoId relevanceLanguage safeSearch topicId type videoCaption videoCategoryId videoDefinition videoDimension videoDuration videoEmbeddable videoLicense videoSyndicated videoType : Option Val),
      (get_search t app channelId channelType eventType forContentOwner forDeveloper forMine location locationRadius maxResults onBehalfOfContentOwner order pageToken part publishedAfter publishedBefore q regionCode relatedToVideoId relevanceLanguage safeSearch topicId type videoCaption videoCategoryId videoDefinition videoDimension videoDuration videoEmbeddable videoLicense videoSyndicated videoType).calls.map Request.verb = [Verb.get]
      ∧ (get_search t app channelId channelType eventType forContentOwner forDeveloper forMine location locationRadius maxResults onBehalfOfContentOwner order pageToken part publishedAfter publishedBefore q regionCode relatedToVideoId relevanceLanguage safeSearch topicId type videoCaption videoCategoryId videoDefinition videoDimension videoDuration videoEmbeddable videoLicense videoSyndicated videoType).calls.map Request.body = [(none : Option Json)]
      ∧ (get_search t app channelId channelType eventType forContentOwner forDeveloper forMine location locationRadius maxResults onBehalfOfContentOwner order pageToken part publishedAfter publishedBefore q regionCode relatedToVideoId relevanceLanguage safeSearch topicId type videoCaption videoCategoryId videoDefinition videoDimension videoDuration videoEmbeddable videoLicense videoSyndicated videoType).final = app)
    ∧
    (∀ (t : Transport) (app : YoutubeApp) (filter maxResults pageToken part : Option Val),
      (get_sponsors t app filter maxResults pageToken part).calls.map Request.verb = [Verb.get]
      ∧ (get_sponsors t app filter maxResults pageToken part).calls.map Request.body = [(none : Option Json)]
      ∧ (get_sponsors t app filter maxResults pageToken part).final = app)
    ∧
    (∀ (t : Transport) (app : YoutubeApp) (id : Option Val),
      (delete_subscriptions t app id).calls.map Request.verb = [Verb.delete]
      ∧ (delete_subscriptions t app id).calls.map Request.body = [(none : Option Json)]
      ∧ (delete_subscriptions t app id).final = app)
    ∧
    (∀ (t : Transport) (app : YoutubeApp) (hl maxResults pageToken part : Option Val),
      (get_superchatevents t app hl maxResults pageToken part).calls.map Request.verb = [Verb.get]
      ∧ (get_superchatevents t app hl maxResults pageToken part).calls.map Request.body = [(none : Option Json)]
      ∧ (get_superchatevents t app hl maxResults pageToken part).final = app)
    ∧
    (∀ (t : Transport) (app : YoutubeApp) (onBehalfOfContentOwner videoId : Option Val),
      (add_thumbnails_set t app onBehalfOfContentOwner videoId).calls.map Request.verb = [Verb.post]
      ∧ (add_thumbnails_set t app onBehalfOfContentOwner videoId).calls.map Request.body = [(some (Json.obj []) : Option Json)]
      ∧ (add_thumbnails_set t app onBehalfOfContentOwner videoId).final = app)
    ∧
    (∀ (t : Transport) (app : YoutubeApp) (hl part : Option Val),
      (get_video_abuse_report_reasons t app hl part).calls.map Request.verb = [Verb.get]
      ∧ (get_video_abuse_report_reasons t app hl part).calls.map Request.body = [(none : Option Json)]
      ∧ (get_video_abuse_report_reasons t app hl part).final = app)
    ∧
    (∀ (t : Transport) (app : YoutubeApp) (hl id part regionCode : Option Val),
      (get_veocategories t app hl id part regionCode).calls.map Request.verb = [Verb.get]
      ∧ (get_veocategories t app hl id part regionCode).calls.map Request.body = [(none : Option Json)]
      ∧ (get_veocategories t app hl id part regionCode).final = app)
    ∧
    (∀ (t : Transport) (app : YoutubeApp) (id onBehalfOfContentOwner : Option Val),
      (delete_groupitems t app id onBehalfOfContentOwner).calls.map Request.verb = [Verb.delete]
      ∧ (delete_groupitems t app id onBehalfOfContentOwner).calls.map Request.body = [(none : Option Json)]
      ∧ (delete_groupitems t app id onBehalfOfContentOwner).final = app)
    ∧
    (∀ (t : Transport) (app : YoutubeApp) (id onBehalfOfContentOwner : Option Val),
      (delete_groups t app id onBehalfOfContentOwner).calls.map Request.verb = [Verb.delete]
      ∧ (delete_groups t app id onBehalfOfContentOwner).calls.map Request.body = [(none : Option Json)]
      ∧ (delete_groups t app id onBehalfOfContentOwner).final = app)
    ∧
    (∀ (t : Transport) (app : YoutubeApp) (currency dimensions «end» filters ids «include» max metrics sort start : Option Val),
      (get_reports t app currency dimensions «end» filters ids «include» max metrics sort start).calls.map Request.verb = [Verb.get]
      ∧ (get_reports t app currency dimensions «end» filters ids «include» max metrics sort start).calls.map Request.body = [(none : Option Json)]
      ∧ (get_reports t app currency dimensions «end» filters ids «include» max metrics sort start).final = app) :=
  ⟨
    (fun t app jobId createdAfter onBehalfOfContentOwner pageSize pageToken startTimeAtOrAfter startTimeBefore => by
      simp [get_jobs_job_reports, httpCall]),
    (fun t app jobId reportId onBehalfOfContentOwner => by
      simp [get_jobs_job_reports_report, httpCall]),
    (fun t app jobId onBehalfOfContentOwner => by
      simp [delete_jobs_job, httpCall]),
    (fun t app includeSystemManaged onBehalfOfContentOwner pageSize pageToken => by
      simp [get_jobs, httpCall]),
    (fun t app resourceName => by
      simp [get_media_resource_name, httpCall]),
    (fun t app includeSystemManaged onBehalfOfContentOwner pageSize pageToken => by
      simp [get_reporttypes, httpCall]),
    (fun t app id onBehalfOf onBehalfOfContentOwner => by
      simp [delete_captions, httpCall]),
    (fun t app id => by
      simp [delete_comments, httpCallHandle]),
    (fun t app id => by
      simp [add_comments_mark_as_spam, httpCall]),
    (fun t app banAuthor id moderationStatus => by
      simp [add_comments_set_moderation_status, httpCall]),
    (fun t app id onBehalfOfContentOwner onBehalfOfContentOwnerChannel => by
      simp [delete_live_broadcasts, httpCall]),
    (fun t app id onBehalfOfContentOwner onBehalfOfContentOwnerChannel part streamId => by
      simp [add_live_broadcasts_bind, httpCall]),
    (fun t app displaySlate id offsetTimeMs onBehalfOfContentOwner onBehalfOfContentOwnerChannel part walltime => by
      simp [add_live_broadcasts_control, httpCall]),
    (fun t app broadcastStatus id onBehalfOfContentOwner onBehalfOfContentOwnerChannel part => by
      simp [add_live_broadcasts_transition, httpCall]),
    (fun t app id => by
      simp [delete_live_chat_bans, httpCall]),
    (fun t app id => by
      simp [delete_live_chat_messages, httpCall]),
    (fun t app id => by
      simp [delete_live_chat_moderators, httpCall]),
    (fun t app id onBehalfOfContentOwner => by
      simp [delete_videos, httpCall]),
    (fun t app id onBehalfOfContentOwner => by
      simp [get_videos_get_rating, httpCall]),
    (fun t app id rating => by
      simp [add_videos_rate, httpCall]),
    (fun t app onBehalfOfContentOwner => by
      simp [add_videos_report_abuse, httpCall]),
    (fun t app channelId onBehalfOfContentOwner => by
      simp [add_watermarks_set, httpCall]),
    (fun t app channelId onBehalfOfContentOwner => by
      simp [add_watermarks_unset, httpCall]),
    (fun t app channelId home maxResults mine pageToken part publishedAfter publishedBefore regionCode => by
      simp [get_activities, httpCall]),
    (fun t app channelId onBehalfOfContentOwner => by
      simp [add_channel_banners_insert, httpCall]),
    (fun t app id onBehalfOfContentOwner => by
      simp [delete_channel_sections, httpCall]),
    (fun t app categoryId forUsername hl id managedByMe maxResults mine mySubscribers onBehalfOfContentOwner pageToken part => by
      simp [get_channels, httpCall]),
    (fun t app allThreadsRelatedToChannelId channelId id maxResults moderationStatus order pageToken part searchTerms textFormat videoId => by
      simp [get_comment_threads, httpCall]),
    (fun t app hl maxResults pageToken part => by
      simp [get_fanfundingevents, httpCall]),
    (fun t app hl id part regionCode => by
      simp [get_guecategories, httpCall]),
    (fun t app hl part => by
      simp [get_languages, httpCall]),
    (fun t app hl part => by
      simp [get_regions, httpCall]),
    (fun t app id onBehalfOfContentOwner onBehalfOfContentOwnerChannel => by
      simp [delete_livestreams, httpCall]),
    (fun t app id onBehalfOfContentOwner => by
      simp [delete_play_list_items, httpCall]),
    (fun t app id onBehalfOfContentOwner => by
      simp [delete_playlists, httpCall]),
    (fun t app channelId channelType eventType forContentOwner forDeveloper forMine location locationRadius maxResults onBehalfOfContentOwner order pageToken part publishedAfter publishedBefore q regionCode relatedToVideoId relevanceLanguage safeSearch topicId type videoCaption videoCategoryId videoDefinition videoDimension videoDuration videoEmbeddable videoLicense videoSyndicated videoType => by
      simp [get_search, httpCall]),
    (fun t app filter maxResults pageToken part => by
      simp [get_sponsors, httpCall]),
    (fun t app id => by
      simp [delete_subscriptions, httpCall]),
    (fun t app hl maxResults pageToken part => by
      simp [get_superchatevents, httpCall]),
    (fun t app onBehalfOfContentOwner videoId => by
      simp [add_thumbnails_set, httpCall]),
    (fun t app hl part => by
      simp [get_video_abuse_report_reasons, httpCall]),
    (fun t app hl id part regionCode => by
      simp [get_veocategories, httpCall]),
    (fun t app id onBehalfOfContentOwner => by
      simp [delete_groupitems, httpCall]),
    (fun t app id onBehalfOfContentOwner => by
      simp [delete_groups, httpCall]),
    (fun t app currency dimensions «end» filters ids «include» max metrics sort start => by
      simp [get_reports, httpCall])⟩

/-- C4: get_captions returns the text of every snippet delivered by the transcript
collaborator, in sequence order, joined by a single space (specSpaceJoin transcribes the
spec wording); in particular snippets Hello and world yield the string Hello world. -/
theorem thm_C4 :
    (∀ (fetch : String → Except String (List TranscriptSnippet)) (vid : String)
        (snippets : List TranscriptSnippet),
      fetch vid = Except.ok snippets →
      get_captions fetch (some vid)
        = Except.ok (specSpaceJoin (snippets.map TranscriptSnippet.text)))
    ∧ get_captions (fun _ => Except.ok [⟨"Hello"⟩, ⟨"world"⟩]) (some "abc")
        = Except.ok "Hello world" :=
  ⟨fun fetch vid snippets h => by
      simp [get_captions, h, intercalate_space_eq_specSpaceJoin],
   rfl⟩

/-- Witness for thm_C4 at a concrete collaborator returning the snippets Hello and world. -/
theorem thm_C4_witness :
    get_captions (fun _ => Except.ok [TranscriptSnippet.mk "Hello", TranscriptSnippet.mk "world"])
        (some "abc")
      = Except.ok "Hello world" :=
  thm_C4.1 (fun _ => Except.ok [TranscriptSnippet.mk "Hello", TranscriptSnippet.mk "world"])
    "abc" [TranscriptSnippet.mk "Hello", TranscriptSnippet.mk "world"] rfl

/-- C5: whenever the transcript collaborator fails, get_captions fails with a
TranscriptUnavailable error carrying the requested video identifier and the original cause;
it never returns a partial or empty text in that case. -/
theorem thm_C5 :
    ∀ (fetch : String → Except String (List TranscriptSnippet)) (vid e : String),
      fetch vid = Except.error e →
      get_captions fetch (some vid) = Except.error (AppError.transcriptUnavailable vid e) :=
  fun fetch vid e h => by simp [get_captions, h]

/-- Witness for thm_C5 at a concrete collaborator that raises. -/
theorem thm_C5_witness :
    get_captions (fun _ => Except.error "no captions") (some "abc")
      = Except.error (AppError.transcriptUnavailable "abc" "no captions") :=
  thm_C5 (fun _ => Except.error "no captions") "abc" "no captions" rfl

/-- C8: list_tools returns the full list of callable tool operations: it equals the list of
tool methods defined on the class, in definition order, and in particular contains the
transcript operation get_captions. -/
theorem thm_C8 : list_tools = definedToolMethods ∧ "get_captions" ∈ list_tools :=
  ⟨rfl, by decide⟩

/-- C9: only None marks an optional parameter absent: the None-filtering comprehension
keeps every pair whose value is present, including falsy values, shown generically for
pyDictComp and concretely on get_jobs and get_jobs_job_reports invoked with False, 0 and
the empty string. -/
theorem thm_C9 :
    (∀ (l : List (String × Option Val)) (k : String) (v : Val),
      (k, v) ∈ pyDictComp l ↔ (k, some v) ∈ l)
    ∧ (∀ (t : Transport) (app : YoutubeApp),
      sentParams (get_jobs t app (some (Val.bool false)) none (some (Val.int 0))
          (some (Val.str "")))
        = [("includeSystemManaged", Val.bool false), ("pageSize", Val.int 0),
           ("pageToken", Val.str "")])
    ∧ (∀ (t : Transport) (app : YoutubeApp) (jobId : Val),
      sentParams (get_jobs_job_reports t app (some jobId) (some (Val.bool false)) none
          (some (Val.int 0)) (some (Val.str "")) none none)
        = [("createdAfter", Val.bool false), ("pageSize", Val.int 0),
           ("pageToken", Val.str "")]) :=
  ⟨mem_pyDictComp_iff,
   fun t app => by simp [sentParams, get_jobs, httpCall, pyDictComp],
   fun t app jobId => by simp [sentParams, get_jobs_job_reports, httpCall, pyDictComp]⟩

/-- C10: when the transcript collaborator succeeds with an empty snippet sequence,
get_captions returns the empty string and raises no error. -/
theorem thm_C10 :
    ∀ (fetch : String → Except String (List TranscriptSnippet)) (vid : String),
      fetch vid = Except.ok ([] : List TranscriptSnippet) →
      get_captions fetch (some vid) = Except.ok "" :=
  fun fetch vid h => by
    simp [get_captions, h, intercalate_space_eq_specSpaceJoin, specSpaceJoin]

/-- Witness for thm_C10 at a concrete collaborator returning no snippets. -/
theorem thm_C10_witness :
    get_captions (fun _ => Except.ok ([] : List TranscriptSnippet)) (some "v")
      = Except.ok "" :=
  thm_C10 (fun _ => Except.ok ([] : List TranscriptSnippet)) "v" rfl

